import Mathlib

/-!
# DVFS-based power-aware scheduling: the engine of `daa.c`

A shallow embedding of the scheduling and energy-accounting code of `daa.c`.

Conventions of the embedding:

* C `int` values are mathematical integers (`Int`); signed overflow is
  undefined in C and none of the functions below relies on it.
* C `float` values are exact rationals (`ℚ`): `3.0`, `2.5`, `1.8`, `0.1f` and
  `3600.0f` are `3`, `5/2`, `9/5`, `1/10` and `3600`, and `+`, `-`, `*`, `/`
  on them are exact.
* The functions whose names end in `_f32` are the same functions with the
  rounding of the program: a `float` is the rational it stands for, and every
  `float` constant, conversion and operation is followed by `round_f32`, the
  rounding to the nearest binary32 value (each operation is evaluated in
  `float`, as with `FLT_EVAL_METHOD` 0 on x86-64 and ARM64).
* An array argument `VM vms[]` together with its `int count` is a `List VM`
  whose length is `count`; a `for (i = 0; i < count; i++)` loop over it is a
  recursion over the list, head first.
* A function that updates `*vm` or `*baseline_energy_total` in place returns
  the updated value.
* The lines a function prints are returned as a list of `Event`s, in the
  order printed (headings and the summary table apart).
* `rand()` is a stream `Nat → Int`: its `i`-th call returns `rand i`.
-/

namespace DVFS

/-! ## Data model -/

/-- The enum `VMState` (daa.c:19). -/
inductive VMState where
  | ACTIVE
  | IDLE
  | SLEEP
deriving DecidableEq, Repr

/-- The struct `VM` (daa.c:21-29). -/
structure VM where
  id : Int
  utilization : Int
  cpu_freq : ℚ
  energy_used : ℚ
  task_count : Int
  state : VMState
  idle_counter : Int
deriving DecidableEq, Repr

/-- The struct `Task` (daa.c:31-35). -/
structure Task where
  id : Int
  load : Int
  runtime : Int
deriving DecidableEq, Repr

/-- One printed line of the simulation. -/
inductive Event where
  /-- Line `VM-%d turned OFF due to underutilization` (daa.c:110). -/
  | turned_off (vm_id : Int)
  /-- Line `Task-%d -> VM-%d | Load | Freq | Energy` (daa.c:127). -/
  | assigned (task_id vm_id load : Int) (freq energy : ℚ)
  /-- Line `SLA Warning: Task-%d may miss deadline` (daa.c:136). -/
  | sla_warning (task_id : Int)
  /-- Line `Reactivated VM-%d for Task-%d` (daa.c:150). -/
  | reactivated (vm_id task_id : Int)
  /-- Line `Task-%d could not be scheduled` (daa.c:155). -/
  | could_not_be_scheduled (task_id : Int)
deriving DecidableEq, Repr

def MAX_VMS : Nat := 5
def MAX_TASKS : Nat := 20
def CONSOLIDATION_THRESHOLD : Int := 50

def DVFS_HIGH : ℚ := 3
def DVFS_MED : ℚ := 5 / 2
def DVFS_LOW : ℚ := 9 / 5

/-! ## DVFS logic and energy models -/

/-- The function `adjust_frequency` (daa.c:61-68). -/
def adjust_frequency (vm : VM) : VM :=
  if vm.utilization > 80 then
    { vm with cpu_freq := DVFS_HIGH }
  else if vm.utilization < 40 then
    { vm with cpu_freq := DVFS_LOW }
  else
    { vm with cpu_freq := DVFS_MED }

/-- The function `estimate_energy` (daa.c:71-75). -/
def estimate_energy (runtime : Int) (freq : ℚ) : ℚ :=
  let power := freq * (1 / 10)
  let time_hr := (runtime : ℚ) / 3600
  power * time_hr

/-- The function `estimate_baseline_energy` (daa.c:77-81). -/
def estimate_baseline_energy (runtime : Int) : ℚ :=
  let power := (3 : ℚ) * (1 / 10)
  let time_hr := (runtime : ℚ) / 3600
  power * time_hr

/-! ## Initialisation -/

/-- The function `initialize_vms` (daa.c:84-94): entry `i` takes the `i`-th
draw of `rand()`; `%` on C ints truncates towards zero. -/
def initialize_vms (rand : Nat → Int) (count : Nat) : List VM :=
  (List.range count).map fun (i : Nat) =>
    { id := (i : Int)
      utilization := Int.tmod (rand i) 40 + 30
      cpu_freq := DVFS_MED
      energy_used := 0
      task_count := 0
      state := VMState.ACTIVE
      idle_counter := 0 }

/-- The function `initialize_tasks` (daa.c:96-102): task `i` takes two
draws of `rand()`, the load first. -/
def initialize_tasks (rand : Nat → Int) (count : Nat) : List Task :=
  (List.range count).map fun (i : Nat) =>
    { id := (i : Int)
      load := Int.tmod (rand (2 * i)) 16 + 5
      runtime := Int.tmod (rand (2 * i + 1)) 540 + 60 }

/-! ## Consolidation -/

/-- The function `consolidate_vms` (daa.c:105-113). -/
def consolidate_vms : List VM → List VM × List Event
  | [] => ([], [])
  | vm :: rest =>
    let r := consolidate_vms rest
    if vm.utilization < CONSOLIDATION_THRESHOLD ∧ vm.task_count < 2 then
      ({ vm with state := VMState.SLEEP } :: r.1, Event.turned_off vm.id :: r.2)
    else
      (vm :: r.1, r.2)

/-! ## Task assignment -/

/-- The function `check_sla_compliance` (daa.c:134-138). -/
def check_sla_compliance (task : Task) (energy_used : ℚ) : List Event :=
  if energy_used > (task.runtime : ℚ) * (1 / 10) then
    [Event.sla_warning task.id]
  else
    []

/-- The function `assign_task_to_vm` (daa.c:116-131): the updated VM, the
updated `*baseline_energy_total` and the lines printed. -/
def assign_task_to_vm (vm : VM) (task : Task) (baseline_energy_total : ℚ) :
    VM × ℚ × List Event :=
  if vm.utilization + task.load > 100 then
    (vm, baseline_energy_total, [])
  else
    let vm1 := { vm with utilization := vm.utilization + task.load }
    let vm2 := { vm1 with task_count := vm1.task_count + 1 }
    let vm3 := adjust_frequency vm2
    let energy := estimate_energy task.runtime vm3.cpu_freq
    let vm4 := { vm3 with energy_used := vm3.energy_used + energy }
    (vm4, baseline_energy_total + estimate_baseline_energy task.runtime,
      Event.assigned task.id vm4.id task.load vm4.cpu_freq energy ::
        check_sla_compliance task energy)

/-- The reset that `reactivate_sleeping_vm` applies to the VM it wakes
(daa.c:144-148). -/
def reset_vm (vm : VM) : VM :=
  { vm with
    state := VMState.ACTIVE
    utilization := 0
    task_count := 0
    energy_used := 0
    cpu_freq := DVFS_MED }

/-- The function `reactivate_sleeping_vm` (daa.c:141-156). -/
def reactivate_sleeping_vm : List VM → Task → ℚ → List VM × ℚ × List Event
  | [], task, baseline_energy_total =>
    ([], baseline_energy_total, [Event.could_not_be_scheduled task.id])
  | vm :: rest, task, baseline_energy_total =>
    if vm.state = VMState.SLEEP then
      let r := assign_task_to_vm (reset_vm vm) task baseline_energy_total
      (r.1 :: rest, r.2.1, Event.reactivated vm.id task.id :: r.2.2)
    else
      let r := reactivate_sleeping_vm rest task baseline_energy_total
      (vm :: r.1, r.2.1, r.2.2)

/-! ## The scheduling loop of `main` -/

/-- The inner loop of `main` (daa.c:219-226): `none` when it ends with
`assigned == 0`, and otherwise the pool after the assignment to the first
ACTIVE VM with room for the task. -/
def first_fit : List VM → Task → ℚ → Option (List VM × ℚ × List Event)
  | [], _, _ => none
  | vm :: rest, task, baseline_energy_total =>
    if vm.state = VMState.ACTIVE ∧ vm.utilization + task.load ≤ 100 then
      let r := assign_task_to_vm vm task baseline_energy_total
      some (r.1 :: rest, r.2.1, r.2.2)
    else
      match first_fit rest task baseline_energy_total with
      | some r => some (vm :: r.1, r.2.1, r.2.2)
      | none => none

/-- One iteration of the scheduling loop of `main` (daa.c:218-229). -/
def schedule_task (vms : List VM) (task : Task) (baseline_energy_total : ℚ) :
    List VM × ℚ × List Event :=
  match first_fit vms task baseline_energy_total with
  | some r => r
  | none => reactivate_sleeping_vm vms task baseline_energy_total

/-- The scheduling loop of `main` (daa.c:217-230) over the task list. -/
def schedule_tasks : List VM → List Task → ℚ → List VM × ℚ × List Event
  | vms, [], baseline_energy_total => (vms, baseline_energy_total, [])
  | vms, task :: rest, baseline_energy_total =>
    let r := schedule_task vms task baseline_energy_total
    let r' := schedule_tasks r.1 rest r.2.1
    (r'.1, r'.2.1, r.2.2 ++ r'.2.2)

/-! ## Summary -/

/-- What `simulation_summary` prints, and the `efficiency` local of
`calculate_power_efficiency` when it is computed. -/
structure Summary where
  total_tasks : Int
  baseline_energy : ℚ
  total_energy : ℚ
  energy_saved : ℚ
  efficiency : Option ℚ
deriving DecidableEq, Repr

/-- The function `calculate_power_efficiency` (daa.c:191-196): the value of
its local `efficiency`, `none` when the division is not performed. -/
def calculate_power_efficiency (energy_saved : ℚ) (total_tasks : ℚ) : Option ℚ :=
  if total_tasks > 0 then
    some (energy_saved / total_tasks)
  else
    none

/-- The accumulation loop of `simulation_summary` (daa.c:174-178) from the
running values of `total_energy` and `total_tasks`. -/
def summary_loop : List VM → ℚ → Int → ℚ × Int
  | [], total_energy, total_tasks => (total_energy, total_tasks)
  | vm :: rest, total_energy, total_tasks =>
    if vm.state = VMState.SLEEP then
      summary_loop rest total_energy total_tasks
    else
      summary_loop rest (total_energy + vm.energy_used) (total_tasks + vm.task_count)

/-- The function `simulation_summary` (daa.c:170-189). -/
def simulation_summary (vms : List VM) (baseline_energy : ℚ) : Summary :=
  let acc := summary_loop vms 0 0
  let total_energy := acc.1
  let total_tasks := acc.2
  let energy_saved := baseline_energy - total_energy
  { total_tasks := total_tasks
    baseline_energy := baseline_energy
    total_energy := total_energy
    energy_saved := energy_saved
    efficiency := calculate_power_efficiency energy_saved (total_tasks : ℚ) }

/-! ## Reading the printed lines and the summary loop -/

/-- Whether a printed line is the line of an assignment (daa.c:127). -/
def Event.is_assigned : Event → Bool
  | Event.assigned _ _ _ _ _ => true
  | _ => false

/-- Whether a printed line reports a task that could not be scheduled
(daa.c:155). -/
def Event.is_unschedulable : Event → Bool
  | Event.could_not_be_scheduled _ => true
  | _ => false

/-- The tasks of the list, in order, whose iteration of the scheduling loop
of `main` prints the line of an assignment. -/
def assigned_tasks : List VM → List Task → ℚ → List Task
  | _, [], _ => []
  | vms, task :: rest, baseline_energy_total =>
    let r := schedule_task vms task baseline_energy_total
    if r.2.2.any Event.is_assigned then
      task :: assigned_tasks r.1 rest r.2.1
    else
      assigned_tasks r.1 rest r.2.1

/-- What one VM adds to `total_energy` in the loop of `simulation_summary`
(daa.c:175-176). -/
def VM.counted_energy (vm : VM) : ℚ :=
  if vm.state = VMState.SLEEP then 0 else vm.energy_used

/-- What one VM adds to `total_tasks` in the loop of `simulation_summary`
(daa.c:175-177). -/
def VM.counted_tasks (vm : VM) : Int :=
  if vm.state = VMState.SLEEP then 0 else vm.task_count

/-! ## The whole run -/

/-- The function `main` (daa.c:199-236): the final pool, the summary and the
lines printed. The VMs take the first `MAX_VMS` draws of `rand()`, the tasks
the next `2 * MAX_TASKS`; the draw of `predict_workload` comes after them and
is only printed. -/
def main (rand : Nat → Int) : List VM × Summary × List Event :=
  let vms := initialize_vms rand MAX_VMS
  let tasks := initialize_tasks (fun i => rand (MAX_VMS + i)) MAX_TASKS
  let c := consolidate_vms vms
  let r := schedule_tasks c.1 tasks 0
  (r.1, simulation_summary r.1 r.2.1, c.2 ++ r.2.2)

/-! ## The same functions in binary32 arithmetic -/

/-- The power of two `2 ^ z` for `z >= 0`, and `1` for `z < 0`. -/
def pow2 (z : Int) : Nat := 2 ^ z.toNat

/-- The loop of `bit_length`, bounded by `fuel`. -/
def bit_length_loop : Nat → Nat → Nat
  | 0, _ => 0
  | fuel + 1, n => if n = 0 then 0 else bit_length_loop fuel (n / 2) + 1

/-- The number of binary digits of `n`: `0` for `0`, and otherwise the `b`
with `2 ^ (b - 1) <= n < 2 ^ b`. -/
def bit_length (n : Nat) : Nat := bit_length_loop n n

/-- The binary32 value nearest to the rational `q`, ties going to the even
significand (the rounding of IEEE 754 `float` arithmetic). With
`2 ^ e <= |q| < 2 ^ (e + 1)`, the result is a multiple of `2 ^ (e - 23)`
(24 significant bits), or of `2 ^ (-149)` in the subnormal range. The
overflow to infinity above the largest `float` is left out: no value of the
simulation comes near it. -/
def round_f32 (q : ℚ) : ℚ :=
  let n := q.num.natAbs
  let d := q.den
  if n = 0 then 0 else
    let e0 : Int := (bit_length n : Int) - (bit_length d : Int)
    let e : Int := if d * pow2 e0 ≤ n * pow2 (-e0) then e0 else e0 - 1
    let qe : Int := max (e - 23) (-149)
    let N := n * pow2 (-qe)
    let D := d * pow2 qe
    let k := N / D
    let r := N % D
    let k' := if D < 2 * r ∨ (2 * r = D ∧ k % 2 = 1) then k + 1 else k
    let m : ℚ := ((k' * pow2 qe : Nat) : ℚ) / ((pow2 (-qe) : Nat) : ℚ)
    if q < 0 then -m else m

/-- A pool whose VM 0 is full and whose VMs 1 and 2 have room. -/
def pool_first_fit : List VM :=
  [{ id := 0, utilization := 95, cpu_freq := DVFS_HIGH, energy_used := 0,
     task_count := 1, state := VMState.ACTIVE, idle_counter := 0 },
   { id := 1, utilization := 50, cpu_freq := DVFS_MED, energy_used := 0,
     task_count := 0, state := VMState.ACTIVE, idle_counter := 0 },
   { id := 2, utilization := 60, cpu_freq := DVFS_MED, energy_used := 0,
     task_count := 0, state := VMState.ACTIVE, idle_counter := 0 }]

/-- A task of load 10. -/
def task_first_fit : Task := { id := 7, load := 10, runtime := 360 }

/-- A pool whose VM 0 is ACTIVE and whose VMs 1 and 2 sleep. -/
def pool_sleeping : List VM :=
  [{ id := 0, utilization := 95, cpu_freq := DVFS_HIGH, energy_used := 1 / 50,
     task_count := 2, state := VMState.ACTIVE, idle_counter := 0 },
   { id := 1, utilization := 35, cpu_freq := DVFS_MED, energy_used := 0,
     task_count := 0, state := VMState.SLEEP, idle_counter := 0 },
   { id := 2, utilization := 45, cpu_freq := DVFS_MED, energy_used := 0,
     task_count := 0, state := VMState.SLEEP, idle_counter := 0 }]

/-- A pool of two ACTIVE VMs, both nearly full. -/
def pool_full : List VM :=
  [{ id := 0, utilization := 95, cpu_freq := DVFS_HIGH, energy_used := 1 / 50,
     task_count := 2, state := VMState.ACTIVE, idle_counter := 0 },
   { id := 1, utilization := 98, cpu_freq := DVFS_HIGH, energy_used := 1 / 25,
     task_count := 3, state := VMState.ACTIVE, idle_counter := 0 }]

/-- A pool of ACTIVE VMs: VM 0 is under-used, VM 1 is busy, VM 2 has a low
utilization but two tasks. -/
def pool_active : List VM :=
  [{ id := 0, utilization := 35, cpu_freq := DVFS_MED, energy_used := 0,
     task_count := 0, state := VMState.ACTIVE, idle_counter := 0 },
   { id := 1, utilization := 50, cpu_freq := DVFS_MED, energy_used := 0,
     task_count := 0, state := VMState.ACTIVE, idle_counter := 0 },
   { id := 2, utilization := 20, cpu_freq := DVFS_LOW, energy_used := 1 / 100,
     task_count := 2, state := VMState.ACTIVE, idle_counter := 0 }]

/-- The single ACTIVE VM at utilization 90 of the scenario of C9. -/
def vm_at_90 : VM :=
  { id := 0, utilization := 90, cpu_freq := DVFS_HIGH, energy_used := 0,
    task_count := 0, state := VMState.ACTIVE, idle_counter := 0 }

/-- The task of load 5 of the scenario of C9. -/
def task_load_5 : Task := { id := 0, load := 5, runtime := 3600 }

/-- A task of load 11, one too many for a VM at utilization 90. -/
def task_load_11 : Task := { id := 11, load := 11, runtime := 120 }

/-- A pool for the summary: two ACTIVE VMs with energies 5/2 and 7/2 and
task counts 1 and 3, and a sleeping VM whose fields are not counted. -/
def pool_summary : List VM :=
  [{ id := 0, utilization := 60, cpu_freq := DVFS_MED, energy_used := 5 / 2,
     task_count := 1, state := VMState.ACTIVE, idle_counter := 0 },
   { id := 1, utilization := 30, cpu_freq := DVFS_MED, energy_used := 7,
     task_count := 9, state := VMState.SLEEP, idle_counter := 0 },
   { id := 2, utilization := 85, cpu_freq := DVFS_HIGH, energy_used := 7 / 2,
     task_count := 3, state := VMState.ACTIVE, idle_counter := 0 }]

/-- A stream of non-negative draws for `rand()`: 5, 22, 39, 56, ... -/
def rand_example : Nat → Int := fun i => 17 * (i : Int) + 5

/-- A VM at utilization 95. -/
def vm_at_95 : VM :=
  { id := 3, utilization := 95, cpu_freq := DVFS_HIGH, energy_used := 1 / 50,
    task_count := 2, state := VMState.ACTIVE, idle_counter := 0 }

/-- A VM in state IDLE with a low utilization and no task. -/
def vm_idle : VM :=
  { id := 4, utilization := 10, cpu_freq := DVFS_LOW, energy_used := 0,
    task_count := 0, state := VMState.IDLE, idle_counter := 0 }

/-- Two tasks of non-negative runtime and loads between 0 and 100. -/
def tasks_example : List Task := [task_first_fit, task_load_5]

/-- Three tasks for the pool `pool_sleeping`: the first is too large for any
VM, the other two fit. -/
def tasks_mixed : List Task :=
  [{ id := 1, load := 150, runtime := 100 }, { id := 2, load := 10, runtime := 3600 },
   { id := 3, load := 5, runtime := 7200 }]

/-- C1: when `vm.utilization + task.load <= 100`, `assign_task_to_vm` adds
the load to the utilization, adds one to the task count, sets the frequency
to the one `adjust_frequency` selects for the new utilization, adds the
task's energy at that new frequency to `energy_used`, adds the task's
baseline energy to the baseline total, and keeps `id` and `state`. -/
theorem assign_task_to_vm_accepted (vm : VM) (task : Task) (total : ℚ)
    (h : vm.utilization + task.load ≤ 100) :
    (assign_task_to_vm vm task total).1.utilization = vm.utilization + task.load ∧
    (assign_task_to_vm vm task total).1.task_count = vm.task_count + 1 ∧
    (assign_task_to_vm vm task total).1.cpu_freq =
      (adjust_frequency { vm with utilization := vm.utilization + task.load }).cpu_freq ∧
    (assign_task_to_vm vm task total).1.energy_used =
      vm.energy_used +
        estimate_energy task.runtime (assign_task_to_vm vm task total).1.cpu_freq ∧
    (assign_task_to_vm vm task total).2.1 =
      total + estimate_baseline_energy task.runtime ∧
    (assign_task_to_vm vm task total).1.id = vm.id ∧
    (assign_task_to_vm vm task total).1.state = vm.state := by
  have hn : ¬ vm.utilization + task.load > 100 := not_lt.mpr h
  simp only [assign_task_to_vm, if_neg hn, adjust_frequency]
  split_ifs <;> simp

/-- The scenario of C1: a VM at utilization 0 and frequency MED takes the task
of load 10 and runtime 3600; it ends at utilization 10 and frequency LOW
(9/5), the task's energy is 9/50 and the baseline total grows by 3/10. -/
theorem assign_task_to_vm_accepted_witness :
    (0 : Int) + 10 ≤ 100 ∧
    (assign_task_to_vm
      { id := 0, utilization := 0, cpu_freq := DVFS_MED, energy_used := 0,
        task_count := 0, state := VMState.ACTIVE, idle_counter := 0 }
      { id := 0, load := 10, runtime := 3600 } 0).1.utilization = 10 ∧
    (assign_task_to_vm
      { id := 0, utilization := 0, cpu_freq := DVFS_MED, energy_used := 0,
        task_count := 0, state := VMState.ACTIVE, idle_counter := 0 }
      { id := 0, load := 10, runtime := 3600 } 0).1.cpu_freq = 9 / 5 ∧
    (assign_task_to_vm
      { id := 0, utilization := 0, cpu_freq := DVFS_MED, energy_used := 0,
        task_count := 0, state := VMState.ACTIVE, idle_counter := 0 }
      { id := 0, load := 10, runtime := 3600 } 0).1.energy_used = 9 / 50 ∧
    (assign_task_to_vm
      { id := 0, utilization := 0, cpu_freq := DVFS_MED, energy_used := 0,
        task_count := 0, state := VMState.ACTIVE, idle_counter := 0 }
      { id := 0, load := 10, runtime := 3600 } 0).2.1 = 3 / 10 := by
  have h := assign_task_to_vm_accepted
    { id := 0, utilization := 0, cpu_freq := DVFS_MED, energy_used := 0,
      task_count := 0, state := VMState.ACTIVE, idle_counter := 0 }
    { id := 0, load := 10, runtime := 3600 } 0 (by decide)
  obtain ⟨hu, -, hf, he, hb, -, -⟩ := h
  have hf' : (assign_task_to_vm
      { id := 0, utilization := 0, cpu_freq := DVFS_MED, energy_used := 0,
        task_count := 0, state := VMState.ACTIVE, idle_counter := 0 }
      { id := 0, load := 10, runtime := 3600 } 0).1.cpu_freq = 9 / 5 := by
    rw [hf]; simp [adjust_frequency, DVFS_LOW]
  refine ⟨by decide, ?_, hf', ?_, ?_⟩
  · rw [hu]; rfl
  · rw [he, hf']; norm_num [estimate_energy]
  · rw [hb]; norm_num [estimate_baseline_energy]

/-! ## The utilization bound -/

/-- An assignment keeps a utilization that is at most 100 at most 100,
whatever the load. -/
theorem assign_utilization_le (vm : VM) (task : Task) (total : ℚ)
    (h : vm.utilization ≤ 100) :
    (assign_task_to_vm vm task total).1.utilization ≤ 100 := by
  unfold assign_task_to_vm
  split_ifs with hc
  · exact h
  · simp only [adjust_frequency]
    split_ifs <;> simpa using not_lt.mp hc

/-- A property of VMs that assignment to a fitting ACTIVE VM keeps holds
of the whole pool after the inner loop of `main` has placed a task. -/
theorem first_fit_forall (P : VM → Prop) (task : Task)
    (hA : ∀ (vm : VM) (total : ℚ), vm.state = VMState.ACTIVE →
      vm.utilization + task.load ≤ 100 → P vm →
      P (assign_task_to_vm vm task total).1) :
    ∀ (vms : List VM) (total : ℚ) (r : List VM × ℚ × List Event),
      first_fit vms task total = some r → (∀ vm ∈ vms, P vm) →
      ∀ vm ∈ r.1, P vm := by
  intro vms
  induction vms with
  | nil => intro total r h; simp [first_fit] at h
  | cons v rest ih =>
    intro total r h hall
    unfold first_fit at h
    split_ifs at h with hc
    · simp only [Option.some.injEq] at h
      subst h
      intro vm hvm
      simp only [List.mem_cons] at hvm
      rcases hvm with rfl | hvm
      · exact hA v total hc.1 hc.2 (hall v (List.mem_cons_self _ _))
      · exact hall vm (List.mem_cons_of_mem _ hvm)
    · cases hff : first_fit rest task total with
      | none => simp [hff] at h
      | some r' =>
        simp only [hff, Option.some.injEq] at h
        subst h
        intro vm hvm
        simp only [List.mem_cons] at hvm
        rcases hvm with rfl | hvm
        · exact hall _ (List.mem_cons_self _ _)
        · exact ih total r' hff (fun x hx => hall x (List.mem_cons_of_mem _ hx)) vm hvm

/-- A property of VMs that holds of every freshly reset VM after the
assignment holds of the whole pool after `reactivate_sleeping_vm`. -/
theorem reactivate_forall (P : VM → Prop) (task : Task)
    (hR : ∀ (vm : VM) (total : ℚ), vm.state = VMState.SLEEP →
      P (assign_task_to_vm (reset_vm vm) task total).1) :
    ∀ (vms : List VM) (total : ℚ), (∀ vm ∈ vms, P vm) →
      ∀ vm ∈ (reactivate_sleeping_vm vms task total).1, P vm := by
  intro vms
  induction vms with
  | nil => intro total _ vm hvm; simp [reactivate_sleeping_vm] at hvm
  | cons v rest ih =>
    intro total hall vm hvm
    unfold reactivate_sleeping_vm at hvm
    split_ifs at hvm with hc
    · simp only [List.mem_cons] at hvm
      rcases hvm with rfl | hvm
      · exact hR v total hc
      · exact hall vm (List.mem_cons_of_mem _ hvm)
    · simp only [List.mem_cons] at hvm
      rcases hvm with rfl | hvm
      · exact hall _ (List.mem_cons_self _ _)
      · exact ih total (fun x hx => hall x (List.mem_cons_of_mem _ hx)) vm hvm

/-- A property of VMs kept by both kinds of assignment is kept by one
iteration of the scheduling loop. -/
theorem schedule_task_forall (P : VM → Prop) (task : Task)
    (hA : ∀ (vm : VM) (total : ℚ), vm.state = VMState.ACTIVE →
      vm.utilization + task.load ≤ 100 → P vm →
      P (assign_task_to_vm vm task total).1)
    (hR : ∀ (vm : VM) (total : ℚ), vm.state = VMState.SLEEP →
      P (assign_task_to_vm (reset_vm vm) task total).1)
    (vms : List VM) (total : ℚ) (hall : ∀ vm ∈ vms, P vm) :
    ∀ vm ∈ (schedule_task vms task total).1, P vm := by
  unfold schedule_task
  cases hff : first_fit vms task total with
  | none => exact reactivate_forall P task hR vms total hall
  | some r => exact first_fit_forall P task hA vms total r hff hall

/-- A property of VMs kept by both kinds of assignment, for every task, is
kept by the whole scheduling loop. -/
theorem schedule_tasks_forall (P : VM → Prop)
    (hA : ∀ (vm : VM) (task : Task) (total : ℚ), vm.state = VMState.ACTIVE →
      vm.utilization + task.load ≤ 100 → P vm →
      P (assign_task_to_vm vm task total).1)
    (hR : ∀ (vm : VM) (task : Task) (total : ℚ), vm.state = VMState.SLEEP →
      P (assign_task_to_vm (reset_vm vm) task total).1) :
    ∀ (tasks : List Task) (vms : List VM) (total : ℚ), (∀ vm ∈ vms, P vm) →
      ∀ vm ∈ (schedule_tasks vms tasks total).1, P vm := by
  intro tasks
  induction tasks with
  | nil => intro vms total hall; simpa [schedule_tasks] using hall
  | cons t rest ih =>
    intro vms total hall
    simp only [schedule_tasks]
    exact ih _ _ (schedule_task_forall P t (fun vm total => hA vm t total)
      (fun vm total => hR vm t total) vms total hall)

/-- Consolidation changes nothing but the state of a VM. -/
theorem consolidate_vms_fields (vms : List VM) :
    ∀ vm ∈ (consolidate_vms vms).1, ∃ v ∈ vms,
      vm.id = v.id ∧ vm.utilization = v.utilization ∧ vm.cpu_freq = v.cpu_freq ∧
      vm.energy_used = v.energy_used ∧ vm.task_count = v.task_count ∧
      vm.idle_counter = v.idle_counter := by
  induction vms with
  | nil => intro vm hvm; simp [consolidate_vms] at hvm
  | cons v rest ih =>
    intro vm hvm
    unfold consolidate_vms at hvm
    split_ifs at hvm with hc
    · simp only [List.mem_cons] at hvm
      rcases hvm with rfl | hvm
      · exact ⟨v, List.mem_cons_self _ _, rfl, rfl, rfl, rfl, rfl, rfl⟩
      · obtain ⟨w, hw, h⟩ := ih vm hvm
        exact ⟨w, List.mem_cons_of_mem _ hw, h⟩
    · simp only [List.mem_cons] at hvm
      rcases hvm with rfl | hvm
      · exact ⟨vm, List.mem_cons_self _ _, rfl, rfl, rfl, rfl, rfl, rfl⟩
      · obtain ⟨w, hw, h⟩ := ih vm hvm
        exact ⟨w, List.mem_cons_of_mem _ hw, h⟩

/-- Every VM of a fresh pool has a utilization below 70. -/
theorem initialize_vms_utilization_lt (rand : Nat → Int) (count : Nat) :
    ∀ vm ∈ initialize_vms rand count, vm.utilization < 70 := by
  intro vm hvm
  simp only [initialize_vms, List.mem_map, List.mem_range] at hvm
  obtain ⟨i, -, rfl⟩ := hvm
  have := Int.tmod_lt_of_pos (rand i) (show (0 : Int) < 40 by decide)
  simp only
  omega

/-- C2: an assignment to a VM whose utilization is at most 100 leaves it at
most 100, whatever the task's load; hence every VM of a fresh pool, and
every VM of the pool after consolidation and any number of scheduling
steps, has a utilization of at most 100. -/
theorem utilization_never_exceeds_100 :
    (∀ (vm : VM) (task : Task) (total : ℚ), vm.utilization ≤ 100 →
      (assign_task_to_vm vm task total).1.utilization ≤ 100) ∧
    (∀ (rand : Nat → Int) (count : Nat),
      ∀ vm ∈ initialize_vms rand count, vm.utilization ≤ 100) ∧
    (∀ (rand : Nat → Int) (count : Nat) (tasks : List Task) (total : ℚ),
      ∀ vm ∈ (schedule_tasks (consolidate_vms (initialize_vms rand count)).1
        tasks total).1, vm.utilization ≤ 100) := by
  refine ⟨assign_utilization_le, ?_, ?_⟩
  · intro rand count vm hvm
    exact le_of_lt (lt_trans (initialize_vms_utilization_lt rand count vm hvm) (by decide))
  · intro rand count tasks total
    apply schedule_tasks_forall (fun vm => vm.utilization ≤ 100)
    · intro vm task total _ _ h
      exact assign_utilization_le vm task total h
    · intro vm task total _
      exact assign_utilization_le (reset_vm vm) task total (by simp [reset_vm])
    · intro vm hvm
      obtain ⟨v, hv, -, hu, -⟩ := consolidate_vms_fields _ vm hvm
      rw [hu]
      exact le_of_lt (lt_trans (initialize_vms_utilization_lt rand count v hv) (by decide))

/-- A VM at utilization 95 that is offered a task of load 50 stays at 95. -/
theorem utilization_never_exceeds_100_witness :
    (95 : Int) ≤ 100 ∧
    (assign_task_to_vm
      { id := 0, utilization := 95, cpu_freq := DVFS_HIGH, energy_used := 0,
        task_count := 1, state := VMState.ACTIVE, idle_counter := 0 }
      { id := 0, load := 50, runtime := 60 } 0).1.utilization ≤ 100 :=
  ⟨by decide, utilization_never_exceeds_100.1 _ _ _ (by decide)⟩

/-! ## First-fit placement -/

/-- An accepted assignment changes the VM: its task count grows. -/
theorem assign_task_to_vm_ne (vm : VM) (task : Task) (total : ℚ)
    (h : vm.utilization + task.load ≤ 100) :
    (assign_task_to_vm vm task total).1 ≠ vm := by
  intro he
  have hc : (assign_task_to_vm vm task total).1.task_count = vm.task_count := by rw [he]
  have hn : ¬ vm.utilization + task.load > 100 := not_lt.mpr h
  simp only [assign_task_to_vm, if_neg hn, adjust_frequency] at hc
  split_ifs at hc <;> simp at hc

/-- An accepted assignment adds the load to the utilization. -/
theorem assign_task_to_vm_utilization (vm : VM) (task : Task) (total : ℚ)
    (h : vm.utilization + task.load ≤ 100) :
    (assign_task_to_vm vm task total).1.utilization = vm.utilization + task.load := by
  have hn : ¬ vm.utilization + task.load > 100 := not_lt.mpr h
  simp only [assign_task_to_vm, if_neg hn, adjust_frequency]
  split_ifs <;> rfl

/-- No assignment changes the state of a VM. -/
theorem assign_task_to_vm_state (vm : VM) (task : Task) (total : ℚ) :
    (assign_task_to_vm vm task total).1.state = vm.state := by
  simp only [assign_task_to_vm, adjust_frequency]
  split_ifs <;> rfl

/-- Replacing a VM by one in the same state keeps the states of the pool. -/
theorem map_state_set : ∀ (l : List VM) (j : Nat) (v a : VM), l[j]? = some v →
    a.state = v.state → (l.set j a).map VM.state = l.map VM.state
  | [], _, _, _, h, _ => by simp at h
  | x :: l, 0, v, a, h, hs => by
    simp only [List.getElem?_cons_zero, Option.some.injEq] at h
    subst h
    simp [hs]
  | x :: l, j + 1, v, a, h, hs => by
    simp only [List.getElem?_cons_succ] at h
    simp [map_state_set l j v a h hs]

/-- The inner loop of `main` assigns the task to the lowest-index ACTIVE VM
with room for it, when there is one, and touches no other VM. -/
theorem first_fit_lowest (task : Task) (total : ℚ) :
    ∀ (vms : List VM),
      (∃ vm ∈ vms, vm.state = VMState.ACTIVE ∧ vm.utilization + task.load ≤ 100) →
      ∃ (j : Nat) (v : VM), vms[j]? = some v ∧
        (v.state = VMState.ACTIVE ∧ v.utilization + task.load ≤ 100) ∧
        (∀ (k : Nat) (w : VM), k < j → vms[k]? = some w →
          ¬ (w.state = VMState.ACTIVE ∧ w.utilization + task.load ≤ 100)) ∧
        first_fit vms task total =
          some (vms.set j (assign_task_to_vm v task total).1,
            (assign_task_to_vm v task total).2.1,
            (assign_task_to_vm v task total).2.2) := by
  intro vms
  induction vms with
  | nil => rintro ⟨vm, hvm, -⟩; simp at hvm
  | cons x rest ih =>
    intro hex
    by_cases hx : x.state = VMState.ACTIVE ∧ x.utilization + task.load ≤ 100
    · refine ⟨0, x, by simp, hx, ?_, ?_⟩
      · intro k w hk; omega
      · simp [first_fit, hx]
    · have hrest : ∃ vm ∈ rest,
          vm.state = VMState.ACTIVE ∧ vm.utilization + task.load ≤ 100 := by
        obtain ⟨vm, hvm, hfit⟩ := hex
        simp only [List.mem_cons] at hvm
        rcases hvm with rfl | hvm
        · exact absurd hfit hx
        · exact ⟨vm, hvm, hfit⟩
      obtain ⟨j, v, hj, hv, hlow, hff⟩ := ih hrest
      refine ⟨j + 1, v, by simpa using hj, hv, ?_, ?_⟩
      · intro k w hk hw
        cases k with
        | zero =>
          simp only [List.getElem?_cons_zero, Option.some.injEq] at hw
          subst hw
          exact hx
        | succ k =>
          simp only [List.getElem?_cons_succ] at hw
          exact hlow k w (by omega) hw
      · simp only [first_fit, if_neg hx, hff, List.set_cons_succ]

/-- C3: strict first fit. When some VM of the pool is ACTIVE with
`utilization + task.load <= 100`, one iteration of the scheduling loop
replaces the lowest-index such VM by the result of `assign_task_to_vm` on it
(which differs from it), leaves every other VM as it was, changes no VM's
state (so it wakes no sleeping VM) and prints what the assignment prints. -/
theorem schedule_task_first_fit (vms : List VM) (task : Task) (total : ℚ)
    (h : ∃ vm ∈ vms, vm.state = VMState.ACTIVE ∧ vm.utilization + task.load ≤ 100) :
    ∃ (j : Nat) (v : VM), vms[j]? = some v ∧
      (v.state = VMState.ACTIVE ∧ v.utilization + task.load ≤ 100) ∧
      (∀ (k : Nat) (w : VM), k < j → vms[k]? = some w →
        ¬ (w.state = VMState.ACTIVE ∧ w.utilization + task.load ≤ 100)) ∧
      (schedule_task vms task total).1 = vms.set j (assign_task_to_vm v task total).1 ∧
      (assign_task_to_vm v task total).1 ≠ v ∧
      (∀ (i : Nat), i ≠ j → (schedule_task vms task total).1[i]? = vms[i]?) ∧
      (schedule_task vms task total).1.map VM.state = vms.map VM.state ∧
      (schedule_task vms task total).2.1 = (assign_task_to_vm v task total).2.1 ∧
      (schedule_task vms task total).2.2 = (assign_task_to_vm v task total).2.2 := by
  obtain ⟨j, v, hj, hv, hlow, hff⟩ := first_fit_lowest task total vms h
  have hs : schedule_task vms task total =
      (vms.set j (assign_task_to_vm v task total).1,
        (assign_task_to_vm v task total).2.1,
        (assign_task_to_vm v task total).2.2) := by
    simp only [schedule_task, hff]
  refine ⟨j, v, hj, hv, hlow, by rw [hs], assign_task_to_vm_ne v task total hv.2,
    ?_, ?_, by rw [hs], by rw [hs]⟩
  · intro i hi
    rw [hs]
    simp only [List.getElem?_set_ne (Ne.symm hi)]
  · rw [hs]
    exact map_state_set vms j v _ hj (assign_task_to_vm_state v task total)

/-- In the pool `pool_first_fit`, whose VM 0 is full and whose VMs 1 and 2
both have room, the task of load 10 goes to VM 1: the utilizations end as
95, 60 and 60. -/
theorem schedule_task_first_fit_witness :
    (∃ vm ∈ pool_first_fit,
      vm.state = VMState.ACTIVE ∧ vm.utilization + task_first_fit.load ≤ 100) ∧
    (schedule_task pool_first_fit task_first_fit 0).1.map VM.utilization =
      [95, 60, 60] := by
  have hex : ∃ vm ∈ pool_first_fit,
      vm.state = VMState.ACTIVE ∧ vm.utilization + task_first_fit.load ≤ 100 :=
    ⟨{ id := 1, utilization := 50, cpu_freq := DVFS_MED, energy_used := 0,
        task_count := 0, state := VMState.ACTIVE, idle_counter := 0 },
      by simp [pool_first_fit], rfl, by decide⟩
  obtain ⟨j, v, hj, hv, hlow, hs, -⟩ :=
    schedule_task_first_fit pool_first_fit task_first_fit 0 hex
  refine ⟨hex, ?_⟩
  rw [hs]
  rcases j with _ | _ | j
  · simp only [pool_first_fit, List.getElem?_cons_zero, Option.some.injEq] at hj
    subst hj
    exact absurd hv.2 (by decide)
  · simp only [pool_first_fit, List.getElem?_cons_succ, List.getElem?_cons_zero,
      Option.some.injEq] at hj
    subst hj
    have hu := assign_task_to_vm_utilization _ task_first_fit 0 hv.2
    simp only [pool_first_fit, List.set_cons_succ, List.set_cons_zero, List.map_cons,
      List.map_nil, hu]
    rfl
  · have hvm1 : pool_first_fit[1]? = some
        { id := 1, utilization := 50, cpu_freq := DVFS_MED, energy_used := 0,
          task_count := 0, state := VMState.ACTIVE, idle_counter := 0 } := rfl
    exact absurd ⟨rfl, by decide⟩ (hlow 1 _ (by omega) hvm1)

/-! ## Reactivation -/

/-- C4: when the pool holds a VM in state SLEEP, `reactivate_sleeping_vm`
acts on the lowest-index SLEEP VM only: the VM is reset to utilization 0,
task count 0, energy 0, frequency MED (5/2) and state ACTIVE, the task is
assigned to the reset VM, and every other VM of the pool, the other
sleeping VMs included, is as it was. -/
theorem reactivate_sleeping_vm_lowest (vms : List VM) (task : Task) (total : ℚ)
    (h : ∃ vm ∈ vms, vm.state = VMState.SLEEP) :
    ∃ (j : Nat) (v : VM), vms[j]? = some v ∧ v.state = VMState.SLEEP ∧
      (∀ (k : Nat) (w : VM), k < j → vms[k]? = some w → w.state ≠ VMState.SLEEP) ∧
      (reactivate_sleeping_vm vms task total).1 =
        vms.set j (assign_task_to_vm
          { v with state := VMState.ACTIVE, utilization := 0, task_count := 0,
                   energy_used := 0, cpu_freq := 5 / 2 } task total).1 ∧
      (∀ (i : Nat), i ≠ j → (reactivate_sleeping_vm vms task total).1[i]? = vms[i]?) ∧
      (reactivate_sleeping_vm vms task total).2.1 =
        (assign_task_to_vm
          { v with state := VMState.ACTIVE, utilization := 0, task_count := 0,
                   energy_used := 0, cpu_freq := 5 / 2 } task total).2.1 ∧
      (reactivate_sleeping_vm vms task total).2.2 =
        Event.reactivated v.id task.id ::
          (assign_task_to_vm
            { v with state := VMState.ACTIVE, utilization := 0, task_count := 0,
                     energy_used := 0, cpu_freq := 5 / 2 } task total).2.2 := by
  induction vms with
  | nil => obtain ⟨vm, hvm, -⟩ := h; simp at hvm
  | cons x rest ih =>
    by_cases hx : x.state = VMState.SLEEP
    · refine ⟨0, x, by simp, hx, ?_, ?_, ?_, ?_, ?_⟩
      · intro k w hk; omega
      · simp [reactivate_sleeping_vm, hx, reset_vm, DVFS_MED]
      · intro i hi
        cases i with
        | zero => exact absurd rfl hi
        | succ i => simp [reactivate_sleeping_vm, hx]
      · simp [reactivate_sleeping_vm, hx, reset_vm, DVFS_MED]
      · simp [reactivate_sleeping_vm, hx, reset_vm, DVFS_MED]
    · have hrest : ∃ vm ∈ rest, vm.state = VMState.SLEEP := by
        obtain ⟨vm, hvm, hs⟩ := h
        simp only [List.mem_cons] at hvm
        rcases hvm with rfl | hvm
        · exact absurd hs hx
        · exact ⟨vm, hvm, hs⟩
      obtain ⟨j, v, hj, hv, hlow, hp, hothers, ht, he⟩ := ih hrest
      refine ⟨j + 1, v, by simpa using hj, hv, ?_, ?_, ?_, ?_, ?_⟩
      · intro k w hk hw
        cases k with
        | zero =>
          simp only [List.getElem?_cons_zero, Option.some.injEq] at hw
          subst hw
          exact hx
        | succ k =>
          simp only [List.getElem?_cons_succ] at hw
          exact hlow k w (by omega) hw
      · simp only [reactivate_sleeping_vm, if_neg hx, hp, List.set_cons_succ]
      · intro i hi
        cases i with
        | zero => simp [reactivate_sleeping_vm, hx]
        | succ i =>
          simp only [reactivate_sleeping_vm, if_neg hx, List.getElem?_cons_succ]
          exact hothers i (by omega)
      · simp only [reactivate_sleeping_vm, if_neg hx, ht]
      · simp only [reactivate_sleeping_vm, if_neg hx, he]

/-- In the pool `pool_sleeping`, whose VMs 1 and 2 sleep, VM 1 is woken and
takes the task of load 10; VM 2 still sleeps at its old utilization. -/
theorem reactivate_sleeping_vm_lowest_witness :
    (∃ vm ∈ pool_sleeping, vm.state = VMState.SLEEP) ∧
    (reactivate_sleeping_vm pool_sleeping task_first_fit 0).1.map
        (fun vm => (vm.state, vm.utilization)) =
      [(VMState.ACTIVE, 95), (VMState.ACTIVE, 10), (VMState.SLEEP, 45)] := by
  have hex : ∃ vm ∈ pool_sleeping, vm.state = VMState.SLEEP :=
    ⟨{ id := 1, utilization := 35, cpu_freq := DVFS_MED, energy_used := 0,
        task_count := 0, state := VMState.SLEEP, idle_counter := 0 },
      by simp [pool_sleeping], rfl⟩
  obtain ⟨j, v, hj, hv, hlow, hp, -⟩ :=
    reactivate_sleeping_vm_lowest pool_sleeping task_first_fit 0 hex
  refine ⟨hex, ?_⟩
  rw [hp]
  rcases j with _ | _ | j
  · simp only [pool_sleeping, List.getElem?_cons_zero, Option.some.injEq] at hj
    subst hj
    exact absurd hv (by decide)
  · simp only [pool_sleeping, List.getElem?_cons_succ, List.getElem?_cons_zero,
      Option.some.injEq] at hj
    subst hj
    have hu := assign_task_to_vm_utilization
      { id := 1, utilization := 0, cpu_freq := 5 / 2, energy_used := 0,
        task_count := 0, state := VMState.ACTIVE, idle_counter := 0 }
      task_first_fit 0 (by decide)
    have hst := assign_task_to_vm_state
      { id := 1, utilization := 0, cpu_freq := 5 / 2, energy_used := 0,
        task_count := 0, state := VMState.ACTIVE, idle_counter := 0 }
      task_first_fit 0
    simp only [pool_sleeping, List.set_cons_succ, List.set_cons_zero, List.map_cons,
      List.map_nil, hu, hst]
    rfl
  · have hvm1 : pool_sleeping[1]? = some
        { id := 1, utilization := 35, cpu_freq := DVFS_MED, energy_used := 0,
          task_count := 0, state := VMState.SLEEP, idle_counter := 0 } := rfl
    exact absurd rfl (hlow 1 _ (by omega) hvm1)

/-! ## Unschedulable tasks -/

/-- The inner loop of `main` ends with `assigned == 0` when no VM is ACTIVE
with room for the task. -/
theorem first_fit_none (task : Task) (total : ℚ) :
    ∀ (vms : List VM),
      (∀ vm ∈ vms, ¬ (vm.state = VMState.ACTIVE ∧ vm.utilization + task.load ≤ 100)) →
      first_fit vms task total = none := by
  intro vms
  induction vms with
  | nil => intro _; rfl
  | cons x rest ih =>
    intro h
    have hx := h x (List.mem_cons_self _ _)
    have hr := ih (fun vm hvm => h vm (List.mem_cons_of_mem _ hvm))
    simp only [first_fit, if_neg hx, hr]

/-- Without a sleeping VM `reactivate_sleeping_vm` changes nothing and
prints that the task could not be scheduled. -/
theorem reactivate_sleeping_vm_none (task : Task) (total : ℚ) :
    ∀ (vms : List VM), (∀ vm ∈ vms, vm.state ≠ VMState.SLEEP) →
      reactivate_sleeping_vm vms task total =
        (vms, total, [Event.could_not_be_scheduled task.id]) := by
  intro vms
  induction vms with
  | nil => intro _; rfl
  | cons x rest ih =>
    intro h
    have hx := h x (List.mem_cons_self _ _)
    have hr := ih (fun vm hvm => h vm (List.mem_cons_of_mem _ hvm))
    simp only [reactivate_sleeping_vm, if_neg hx, hr]

/-- C5: when no VM is ACTIVE with `utilization + task.load <= 100` and no
VM is in state SLEEP, the scheduling step of the task leaves the pool and
the baseline total as they were and prints only that the task could not be
scheduled; the loop then goes on with the remaining tasks from the same
pool and total. -/
theorem schedule_task_unschedulable (vms : List VM) (task : Task) (total : ℚ)
    (hfit : ∀ vm ∈ vms,
      ¬ (vm.state = VMState.ACTIVE ∧ vm.utilization + task.load ≤ 100))
    (hsleep : ∀ vm ∈ vms, vm.state ≠ VMState.SLEEP) :
    schedule_task vms task total =
      (vms, total, [Event.could_not_be_scheduled task.id]) ∧
    ∀ (rest : List Task),
      schedule_tasks vms (task :: rest) total =
        ((schedule_tasks vms rest total).1, (schedule_tasks vms rest total).2.1,
          Event.could_not_be_scheduled task.id :: (schedule_tasks vms rest total).2.2) := by
  have hs : schedule_task vms task total =
      (vms, total, [Event.could_not_be_scheduled task.id]) := by
    simp only [schedule_task, first_fit_none task total vms hfit,
      reactivate_sleeping_vm_none task total vms hsleep]
  refine ⟨hs, ?_⟩
  intro rest
  simp only [schedule_tasks, hs, List.singleton_append]

/-- In the pool `pool_full` of two nearly full ACTIVE VMs the task of load
10 is unschedulable. -/
theorem schedule_task_unschedulable_witness :
    (∀ vm ∈ pool_full,
      ¬ (vm.state = VMState.ACTIVE ∧ vm.utilization + task_first_fit.load ≤ 100)) ∧
    (∀ vm ∈ pool_full, vm.state ≠ VMState.SLEEP) ∧
    schedule_task pool_full task_first_fit (3 / 10) =
      (pool_full, 3 / 10, [Event.could_not_be_scheduled 7]) := by
  have h1 : ∀ vm ∈ pool_full,
      ¬ (vm.state = VMState.ACTIVE ∧ vm.utilization + task_first_fit.load ≤ 100) := by
    intro vm hvm
    simp only [pool_full, List.mem_cons, List.mem_singleton, List.not_mem_nil, or_false] at hvm
    rcases hvm with rfl | rfl <;> simp [task_first_fit]
  have h2 : ∀ vm ∈ pool_full, vm.state ≠ VMState.SLEEP := by
    intro vm hvm
    simp only [pool_full, List.mem_cons, List.mem_singleton, List.not_mem_nil, or_false] at hvm
    rcases hvm with rfl | rfl <;> simp
  exact ⟨h1, h2, (schedule_task_unschedulable pool_full task_first_fit (3 / 10) h1 h2).1⟩

/-! ## Consolidation of an all-ACTIVE pool -/

/-- C6: in a pool whose VMs are all ACTIVE, `consolidate_vms` changes
nothing but states: every VM with `utilization < 50` and `task_count < 2`
gets state SLEEP and every other VM stays ACTIVE. -/
theorem consolidate_vms_all_active (vms : List VM)
    (h : ∀ vm ∈ vms, vm.state = VMState.ACTIVE) :
    (consolidate_vms vms).1 =
      vms.map (fun vm =>
        { vm with state :=
            if vm.utilization < 50 ∧ vm.task_count < 2 then VMState.SLEEP
            else VMState.ACTIVE }) ∧
    (consolidate_vms vms).1.map VM.state =
      vms.map (fun vm =>
        if vm.utilization < 50 ∧ vm.task_count < 2 then VMState.SLEEP
        else VMState.ACTIVE) := by
  have key : (consolidate_vms vms).1 =
      vms.map (fun vm =>
        { vm with state :=
            if vm.utilization < 50 ∧ vm.task_count < 2 then VMState.SLEEP
            else VMState.ACTIVE }) := by
    induction vms with
    | nil => rfl
    | cons x rest ih =>
      have hx : x.state = VMState.ACTIVE := h x (List.mem_cons_self _ _)
      have hr := ih (fun vm hvm => h vm (List.mem_cons_of_mem _ hvm))
      unfold consolidate_vms
      simp only [CONSOLIDATION_THRESHOLD, List.map_cons]
      split_ifs with hc
      · simp only [hr]
      · simp only [hr, List.cons.injEq, and_true]
        cases x
        simp only at hx
        simp only [hx]
  refine ⟨key, ?_⟩
  rw [key, List.map_map]
  rfl

/-- In the all-ACTIVE pool `pool_active` only VM 0 is put to sleep: VM 1 has
utilization 50 and VM 2 has two tasks. -/
theorem consolidate_vms_all_active_witness :
    (∀ vm ∈ pool_active, vm.state = VMState.ACTIVE) ∧
    (consolidate_vms pool_active).1.map VM.state =
      [VMState.SLEEP, VMState.ACTIVE, VMState.ACTIVE] := by
  have h : ∀ vm ∈ pool_active, vm.state = VMState.ACTIVE := by
    intro vm hvm
    simp only [pool_active, List.mem_cons, List.mem_singleton, List.not_mem_nil,
      or_false] at hvm
    rcases hvm with rfl | rfl | rfl <;> rfl
  refine ⟨h, ?_⟩
  rw [(consolidate_vms_all_active pool_active h).2]
  simp [pool_active]

/-! ## Frequency selection -/

/-- C7: `adjust_frequency` sets `cpu_freq` to HIGH (3) when the utilization
is above 80, to LOW (9/5) when it is below 40 and to MED (5/2) otherwise; it
changes no other field, and two VMs with the same utilization get the same
frequency whatever their previous frequencies. -/
theorem adjust_frequency_spec (vm : VM) :
    (vm.utilization > 80 → (adjust_frequency vm).cpu_freq = 3) ∧
    (vm.utilization < 40 → (adjust_frequency vm).cpu_freq = 9 / 5) ∧
    (¬ vm.utilization > 80 → ¬ vm.utilization < 40 →
      (adjust_frequency vm).cpu_freq = 5 / 2) ∧
    adjust_frequency vm = { vm with cpu_freq := (adjust_frequency vm).cpu_freq } ∧
    (∀ (vm' : VM), vm'.utilization = vm.utilization →
      (adjust_frequency vm').cpu_freq = (adjust_frequency vm).cpu_freq) := by
  refine ⟨?_, ?_, ?_, ?_, ?_⟩
  · intro h
    simp [adjust_frequency, h, DVFS_HIGH]
  · intro h
    have h' : ¬ vm.utilization > 80 := by omega
    simp [adjust_frequency, h, h', DVFS_LOW]
  · intro h1 h2
    simp [adjust_frequency, h1, h2, DVFS_MED]
  · simp only [adjust_frequency]
    split_ifs <;> rfl
  · intro vm' he
    simp only [adjust_frequency, he]
    split_ifs <;> rfl

/-- The three tiers at utilizations 81, 39 and 60. -/
theorem adjust_frequency_spec_witness :
    (adjust_frequency { vm_at_90 with utilization := 81 }).cpu_freq = 3 ∧
    (adjust_frequency { vm_at_90 with utilization := 39 }).cpu_freq = 9 / 5 ∧
    (adjust_frequency { vm_at_90 with utilization := 60 }).cpu_freq = 5 / 2 :=
  ⟨(adjust_frequency_spec { vm_at_90 with utilization := 81 }).1 (by decide),
    (adjust_frequency_spec { vm_at_90 with utilization := 39 }).2.1 (by decide),
    (adjust_frequency_spec { vm_at_90 with utilization := 60 }).2.2.1
      (by decide) (by decide)⟩

/-- C8, as the code has it: a utilization of exactly 40 maps to MED, and a
utilization of exactly 80 maps to MED as well; HIGH starts at 81. -/
theorem adjust_frequency_boundaries (vm : VM) :
    (adjust_frequency { vm with utilization := 40 }).cpu_freq = DVFS_MED ∧
    (adjust_frequency { vm with utilization := 80 }).cpu_freq = DVFS_MED ∧
    (adjust_frequency { vm with utilization := 81 }).cpu_freq = DVFS_HIGH := by
  simp [adjust_frequency]

/-- C8 fails as stated: at a utilization of exactly 80 the frequency set is
MED (5/2), not HIGH (3). -/
theorem adjust_frequency_at_80_not_high :
    (adjust_frequency { vm_at_90 with utilization := 80 }).cpu_freq = 5 / 2 ∧
    (adjust_frequency { vm_at_90 with utilization := 80 }).cpu_freq ≠ DVFS_HIGH := by
  have h : (adjust_frequency { vm_at_90 with utilization := 80 }).cpu_freq = 5 / 2 := by
    simp [adjust_frequency, DVFS_MED]
  refine ⟨h, ?_⟩
  rw [h]
  norm_num [DVFS_HIGH]

/-! ## The scenario of a single VM at utilization 90 -/

/-- C9, as the code has it: in a pool of a single ACTIVE VM at utilization
90, a task of load 5 fits (90 + 5 = 95 <= 100) and is placed on that VM,
which ends at utilization 95 and frequency HIGH with one more task, while
the baseline total grows by the task's baseline energy and only the
assignment is printed. Every task whose load is at most 10 is placed on the
VM in the same way (utilization 90 + load, one more task, the baseline total
grown, frequency HIGH when the load is not negative), and the step reports
the task as not scheduled, with the VM and the total unchanged, exactly
when the load is above 10. -/
theorem schedule_task_single_vm_at_90 (vm : VM) (task : Task) (total : ℚ)
    (hs : vm.state = VMState.ACTIVE) (hu : vm.utilization = 90) :
    (task.load = 5 →
      schedule_task [vm] task total =
        ([{ vm with utilization := 95, task_count := vm.task_count + 1, cpu_freq := 3,
                    energy_used := vm.energy_used + estimate_energy task.runtime 3 }],
          total + estimate_baseline_energy task.runtime,
          Event.assigned task.id vm.id 5 3 (estimate_energy task.runtime 3) ::
            check_sla_compliance task (estimate_energy task.runtime 3))) ∧
    (task.load > 10 →
      schedule_task [vm] task total =
        ([vm], total, [Event.could_not_be_scheduled task.id])) ∧
    (task.load ≤ 10 →
      schedule_task [vm] task total =
        ([(assign_task_to_vm vm task total).1], (assign_task_to_vm vm task total).2.1,
          (assign_task_to_vm vm task total).2.2) ∧
      (assign_task_to_vm vm task total).1.utilization = 90 + task.load ∧
      (assign_task_to_vm vm task total).1.task_count = vm.task_count + 1 ∧
      (assign_task_to_vm vm task total).2.1 =
        total + estimate_baseline_energy task.runtime ∧
      (assign_task_to_vm vm task total).2.2 =
        Event.assigned task.id vm.id task.load
            (assign_task_to_vm vm task total).1.cpu_freq
            (estimate_energy task.runtime (assign_task_to_vm vm task total).1.cpu_freq) ::
          check_sla_compliance task
            (estimate_energy task.runtime (assign_task_to_vm vm task total).1.cpu_freq) ∧
      (0 ≤ task.load →
        (assign_task_to_vm vm task total).1.cpu_freq = 3 ∧
        (assign_task_to_vm vm task total).1.energy_used =
          vm.energy_used + estimate_energy task.runtime 3)) ∧
    (schedule_task [vm] task total =
        ([vm], total, [Event.could_not_be_scheduled task.id]) ↔
      task.load > 10) := by
  have hgt : task.load > 10 →
      schedule_task [vm] task total =
        ([vm], total, [Event.could_not_be_scheduled task.id]) := by
    intro hl
    have hfit : ¬ (vm.state = VMState.ACTIVE ∧ vm.utilization + task.load ≤ 100) := by
      rintro ⟨-, h⟩
      omega
    have hsl : ¬ vm.state = VMState.SLEEP := by
      rw [hs]
      decide
    simp only [schedule_task, first_fit, if_neg hfit, reactivate_sleeping_vm, if_neg hsl]
  have hle : task.load ≤ 10 →
      schedule_task [vm] task total =
        ([(assign_task_to_vm vm task total).1], (assign_task_to_vm vm task total).2.1,
          (assign_task_to_vm vm task total).2.2) := by
    intro hl
    have hfit : vm.state = VMState.ACTIVE ∧ vm.utilization + task.load ≤ 100 := by
      refine ⟨hs, ?_⟩
      omega
    simp only [schedule_task, first_fit, if_pos hfit]
  refine ⟨?_, hgt, ?_, ?_⟩
  · intro hl
    have hfit : vm.state = VMState.ACTIVE ∧ vm.utilization + task.load ≤ 100 := by
      refine ⟨hs, ?_⟩
      omega
    have hn : ¬ vm.utilization + task.load > 100 := by omega
    have h80 : vm.utilization + task.load > 80 := by omega
    simp only [schedule_task, first_fit, if_pos hfit, assign_task_to_vm, if_neg hn,
      adjust_frequency, if_pos h80, DVFS_HIGH, hl, hu]
    norm_num [hs]
  · intro hl
    have hn : ¬ vm.utilization + task.load > 100 := by omega
    refine ⟨hle hl, ?_, ?_, ?_, ?_, ?_⟩
    · rw [assign_task_to_vm_utilization vm task total (by omega), hu]
    · simp only [assign_task_to_vm, if_neg hn, adjust_frequency]
      split_ifs <;> rfl
    · simp only [assign_task_to_vm, if_neg hn]
    · simp only [assign_task_to_vm, if_neg hn, adjust_frequency]
      split_ifs <;> rfl
    · intro h0
      have h80 : vm.utilization + task.load > 80 := by omega
      simp only [assign_task_to_vm, if_neg hn, adjust_frequency, if_pos h80, DVFS_HIGH]
      exact ⟨trivial, trivial⟩
  · constructor
    · intro he
      by_contra hl
      have hl' : task.load ≤ 10 := not_lt.mp hl
      rw [hle hl'] at he
      have hv : (assign_task_to_vm vm task total).1 = vm := by
        have h1 := congrArg Prod.fst he
        simpa using h1
      exact assign_task_to_vm_ne vm task total (by omega) hv
    · exact hgt

/-- The VM `vm_at_90` takes the task `task_load_5` and ends at utilization
95; it takes the task `task_first_fit` of load 10 and ends at utilization
100; the task `task_load_11` is reported as not scheduled. -/
theorem schedule_task_single_vm_at_90_witness :
    vm_at_90.state = VMState.ACTIVE ∧ vm_at_90.utilization = 90 ∧
    task_load_5.load = 5 ∧
    ((schedule_task [vm_at_90] task_load_5 0).1.map VM.utilization = [95]) ∧
    task_first_fit.load ≤ 10 ∧
    ((schedule_task [vm_at_90] task_first_fit 0).1.map VM.utilization = [100]) ∧
    task_load_11.load > 10 ∧
    schedule_task [vm_at_90] task_load_11 0 =
      ([vm_at_90], 0, [Event.could_not_be_scheduled 11]) := by
  refine ⟨rfl, rfl, rfl, ?_, by decide, ?_, by decide, ?_⟩
  · rw [((schedule_task_single_vm_at_90 vm_at_90 task_load_5 0 rfl rfl).1 rfl)]
    rfl
  · obtain ⟨he, hu, -⟩ :=
      (schedule_task_single_vm_at_90 vm_at_90 task_first_fit 0 rfl rfl).2.2.1 (by decide)
    rw [he]
    simp only [List.map_cons, List.map_nil, hu]
    rfl
  · exact (schedule_task_single_vm_at_90 vm_at_90 task_load_11 0 rfl rfl).2.1 (by decide)

/-- C9 fails as stated: the task of load 5 is placed on the single ACTIVE VM
at utilization 90, which ends at utilization 95 with one task, and the
baseline total grows to 3/10; the step does not leave the VM and the total
unchanged and does not print that the task could not be scheduled. -/
theorem schedule_task_at_90_load_5_is_placed :
    (schedule_task [vm_at_90] task_load_5 0).1 =
      [{ vm_at_90 with utilization := 95, task_count := 1, cpu_freq := 3,
                       energy_used := 3 / 10 }] ∧
    (schedule_task [vm_at_90] task_load_5 0).2.1 = 3 / 10 ∧
    (schedule_task [vm_at_90] task_load_5 0).2.2 = [Event.assigned 0 0 5 3 (3 / 10)] ∧
    schedule_task [vm_at_90] task_load_5 0 ≠
      ([vm_at_90], 0, [Event.could_not_be_scheduled 0]) := by
  have hfit : vm_at_90.state = VMState.ACTIVE ∧
      vm_at_90.utilization + task_load_5.load ≤ 100 := ⟨rfl, by decide⟩
  have hn : ¬ vm_at_90.utilization + task_load_5.load > 100 := by decide
  have h80 : vm_at_90.utilization + task_load_5.load > 80 := by decide
  have hv : schedule_task [vm_at_90] task_load_5 0 =
      ([{ vm_at_90 with utilization := 95, task_count := 1, cpu_freq := 3,
                        energy_used := 3 / 10 }], 3 / 10,
        [Event.assigned 0 0 5 3 (3 / 10)]) := by
    simp only [schedule_task, first_fit, if_pos hfit, assign_task_to_vm, if_neg hn,
      adjust_frequency, if_pos h80, DVFS_HIGH, check_sla_compliance, estimate_energy,
      estimate_baseline_energy]
    norm_num [vm_at_90, task_load_5, DVFS_HIGH]
  refine ⟨by rw [hv], by rw [hv], by rw [hv], ?_⟩
  rw [hv]
  intro h
  have h2 := congrArg (fun r => r.2.1) h
  norm_num at h2

/-! ## Summary -/

/-- The accumulation loop of `simulation_summary` adds, to the running
totals, the energies and the task counts of the VMs that are not in state
SLEEP. -/
theorem summary_loop_eq : ∀ (vms : List VM) (e : ℚ) (n : Int),
    summary_loop vms e n =
      (e + ((vms.filter (fun vm => vm.state ≠ VMState.SLEEP)).map VM.energy_used).sum,
        n + ((vms.filter (fun vm => vm.state ≠ VMState.SLEEP)).map VM.task_count).sum)
  | [], e, n => by simp [summary_loop]
  | x :: rest, e, n => by
    unfold summary_loop
    split_ifs with hc
    · rw [summary_loop_eq rest e n]
      simp [hc]
    · rw [summary_loop_eq rest]
      simp [hc, add_assoc]

/-- C10: `simulation_summary` computes the total task count and the total
energy as the sums of `task_count` and `energy_used` over exactly the VMs
whose state is not SLEEP, the energy saved as the baseline minus the total
energy (no clamping), and the efficiency as energy saved over total tasks
exactly when the total task count is positive, no division being performed
otherwise; with a baseline of 10, a total energy of 6 and 4 tasks the energy
saved is 4 and the efficiency 1. -/
theorem simulation_summary_spec (vms : List VM) (baseline : ℚ) :
    (simulation_summary vms baseline).total_tasks =
      ((vms.filter (fun vm => vm.state ≠ VMState.SLEEP)).map VM.task_count).sum ∧
    (simulation_summary vms baseline).total_energy =
      ((vms.filter (fun vm => vm.state ≠ VMState.SLEEP)).map VM.energy_used).sum ∧
    (simulation_summary vms baseline).baseline_energy = baseline ∧
    (simulation_summary vms baseline).energy_saved =
      baseline - (simulation_summary vms baseline).total_energy ∧
    ((simulation_summary vms baseline).total_tasks > 0 →
      (simulation_summary vms baseline).efficiency =
        some ((simulation_summary vms baseline).energy_saved /
          ((simulation_summary vms baseline).total_tasks : ℚ))) ∧
    (¬ (simulation_summary vms baseline).total_tasks > 0 →
      (simulation_summary vms baseline).efficiency = none) ∧
    (baseline = 10 → (simulation_summary vms baseline).total_energy = 6 →
      (simulation_summary vms baseline).total_tasks = 4 →
      (simulation_summary vms baseline).energy_saved = 4 ∧
      (simulation_summary vms baseline).efficiency = some 1) := by
  have hpos : ∀ (n : Int), ((n : ℚ) > 0) ↔ n > 0 := fun n => Int.cast_pos
  refine ⟨?_, ?_, rfl, rfl, ?_, ?_, ?_⟩
  · simp [simulation_summary, summary_loop_eq]
  · simp [simulation_summary, summary_loop_eq]
  · intro h
    simp only [simulation_summary, calculate_power_efficiency] at h ⊢
    rw [if_pos ((hpos _).mpr h)]
  · intro h
    simp only [simulation_summary, calculate_power_efficiency] at h ⊢
    rw [if_neg (fun hc => h ((hpos _).mp hc))]
  · intro hb he ht
    simp only [simulation_summary, calculate_power_efficiency] at he ht ⊢
    rw [he, ht, hb]
    norm_num

/-- The pool `pool_summary` with a baseline of 10: the sleeping VM is left
out, the totals are 4 tasks and an energy of 6, the energy saved is 4 and
the efficiency 1. -/
theorem simulation_summary_spec_witness :
    (simulation_summary pool_summary 10).total_tasks = 4 ∧
    (simulation_summary pool_summary 10).total_energy = 6 ∧
    (simulation_summary pool_summary 10).energy_saved = 4 ∧
    (simulation_summary pool_summary 10).efficiency = some 1 := by
  obtain ⟨ht, he, -, -, -, -, hsc⟩ := simulation_summary_spec pool_summary 10
  have ht' : (simulation_summary pool_summary 10).total_tasks = 4 := by
    rw [ht]
    simp [pool_summary]
  have he' : (simulation_summary pool_summary 10).total_energy = 6 := by
    rw [he]
    simp only [pool_summary, List.filter, List.map, List.sum_cons, List.sum_nil]
    norm_num
  exact ⟨ht', he', hsc rfl he' ht'⟩

/-! ## Rejected assignment -/

/-- C11: when `vm.utilization + task.load > 100`, `assign_task_to_vm`
returns the VM with every field as it was (utilization, task count,
frequency, energy, state, id), leaves the baseline total as it was and
prints nothing. -/
theorem assign_task_to_vm_rejected (vm : VM) (task : Task) (total : ℚ)
    (h : vm.utilization + task.load > 100) :
    assign_task_to_vm vm task total = (vm, total, []) ∧
    (assign_task_to_vm vm task total).1.utilization = vm.utilization ∧
    (assign_task_to_vm vm task total).1.task_count = vm.task_count ∧
    (assign_task_to_vm vm task total).1.cpu_freq = vm.cpu_freq ∧
    (assign_task_to_vm vm task total).1.energy_used = vm.energy_used ∧
    (assign_task_to_vm vm task total).1.state = vm.state ∧
    (assign_task_to_vm vm task total).1.id = vm.id ∧
    (assign_task_to_vm vm task total).2.1 = total := by
  have he : assign_task_to_vm vm task total = (vm, total, []) := by
    unfold assign_task_to_vm
    rw [if_pos h]
  rw [he]
  exact ⟨rfl, rfl, rfl, rfl, rfl, rfl, rfl, rfl⟩

/-- The VM `vm_at_95` does not take the task of load 10: the result is the
VM itself and the total 3/10 stays. -/
theorem assign_task_to_vm_rejected_witness :
    vm_at_95.utilization + task_first_fit.load > 100 ∧
    assign_task_to_vm vm_at_95 task_first_fit (3 / 10) = (vm_at_95, 3 / 10, []) :=
  ⟨by decide, (assign_task_to_vm_rejected vm_at_95 task_first_fit (3 / 10) (by decide)).1⟩

/-! ## Initialisation -/

/-- C12: for every count and every stream of non-negative draws,
`initialize_vms` returns `count` VMs, and VM `i` has `id = i`, a utilization
of `rand i % 40 + 30`, which lies in `[30, 70)`, frequency MED (5/2), energy
0, task count 0 and state ACTIVE. -/
theorem initialize_vms_spec (rand : Nat → Int) (count : Nat)
    (h : ∀ (i : Nat), 0 ≤ rand i) :
    (initialize_vms rand count).length = count ∧
    ∀ (i : Nat) (vm : VM), (initialize_vms rand count)[i]? = some vm →
      i < count ∧ vm.id = (i : Int) ∧ vm.utilization = rand i % 40 + 30 ∧
      30 ≤ vm.utilization ∧ vm.utilization < 70 ∧
      vm.cpu_freq = 5 / 2 ∧ vm.energy_used = 0 ∧ vm.task_count = 0 ∧
      vm.state = VMState.ACTIVE := by
  refine ⟨by simp [initialize_vms], ?_⟩
  intro i vm hvm
  simp only [initialize_vms, List.getElem?_map] at hvm
  by_cases hi : i < count
  · rw [List.getElem?_range hi] at hvm
    simp only [Option.map_some', Option.some.injEq] at hvm
    subst hvm
    have hmod : Int.tmod (rand i) 40 = rand i % 40 :=
      Int.tmod_eq_emod (h i) (by decide)
    have h1 : 0 ≤ rand i % 40 := Int.emod_nonneg _ (by decide)
    have h2 : rand i % 40 < 40 := Int.emod_lt_of_pos _ (by decide)
    refine ⟨hi, rfl, ?_, ?_, ?_, rfl, rfl, rfl, rfl⟩
    · simp only [hmod]
    · simp only [hmod]; omega
    · simp only [hmod]; omega
  · rw [List.getElem?_eq_none (by simpa using hi)] at hvm
    simp at hvm

/-- Five VMs from the stream `rand_example`. -/
theorem initialize_vms_spec_witness :
    (∀ (i : Nat), 0 ≤ rand_example i) ∧
    (initialize_vms rand_example 5).length = 5 ∧
    ∀ (i : Nat) (vm : VM), (initialize_vms rand_example 5)[i]? = some vm →
      i < 5 ∧ vm.id = (i : Int) ∧ vm.utilization = rand_example i % 40 + 30 ∧
      30 ≤ vm.utilization ∧ vm.utilization < 70 ∧
      vm.cpu_freq = 5 / 2 ∧ vm.energy_used = 0 ∧ vm.task_count = 0 ∧
      vm.state = VMState.ACTIVE := by
  have h : ∀ (i : Nat), 0 ≤ rand_example i := by
    intro i
    simp only [rand_example]
    omega
  exact ⟨h, initialize_vms_spec rand_example 5 h⟩

/-! ## Monotonicity of the energy model -/

/-- C13: `estimate_energy r f` is `(f * 0.1) * (r / 3600)`, and it grows
with both arguments: for runtimes `0 <= r1 <= r2` and frequencies
`0 <= f1 <= f2`, `estimate_energy r1 f1 <= estimate_energy r2 f2`. -/
theorem estimate_energy_mono (r1 r2 : Int) (f1 f2 : ℚ)
    (hr1 : 0 ≤ r1) (hr : r1 ≤ r2) (hf1 : 0 ≤ f1) (hf : f1 ≤ f2) :
    estimate_energy r1 f1 = (f1 * (1 / 10)) * ((r1 : ℚ) / 3600) ∧
    estimate_energy r2 f2 = (f2 * (1 / 10)) * ((r2 : ℚ) / 3600) ∧
    estimate_energy r1 f1 ≤ estimate_energy r2 f2 := by
  refine ⟨rfl, rfl, ?_⟩
  have hq1 : (0 : ℚ) ≤ (r1 : ℚ) := by exact_mod_cast hr1
  have hq : (r1 : ℚ) ≤ (r2 : ℚ) := by exact_mod_cast hr
  simp only [estimate_energy]
  apply mul_le_mul
  · exact mul_le_mul_of_nonneg_right hf (by norm_num)
  · exact div_le_div_of_nonneg_right hq (by norm_num)
  · exact div_nonneg hq1 (by norm_num)
  · exact mul_nonneg (le_trans hf1 hf) (by norm_num)

/-- A task of 60 seconds at LOW costs no more than one of 600 seconds at
HIGH. -/
theorem estimate_energy_mono_witness :
    estimate_energy 60 (9 / 5) ≤ estimate_energy 600 3 :=
  (estimate_energy_mono 60 600 (9 / 5) 3 (by decide) (by decide)
    (by norm_num) (by norm_num)).2.2

/-! ## Consolidation and the previous state -/

/-- C15, as the code has it: `consolidate_vms` does not look at the state.
It returns each VM with `utilization < 50` and `task_count < 2` in state
SLEEP, whatever its state was, and every other VM as it was. Hence a VM in
state SLEEP always keeps its state, and a VM in state IDLE keeps it exactly
when its utilization is at least 50 or its task count at least 2. -/
theorem consolidate_vms_ignores_state (vms : List VM) :
    (consolidate_vms vms).1 =
      vms.map (fun vm =>
        if vm.utilization < 50 ∧ vm.task_count < 2 then
          { vm with state := VMState.SLEEP }
        else vm) ∧
    (∀ (i : Nat) (vm : VM), vms[i]? = some vm → vm.state = VMState.SLEEP →
      (consolidate_vms vms).1[i]? = some vm) ∧
    (∀ (i : Nat) (vm : VM), vms[i]? = some vm →
      ¬ (vm.utilization < 50 ∧ vm.task_count < 2) →
      (consolidate_vms vms).1[i]? = some vm) ∧
    (∀ (i : Nat) (vm : VM), vms[i]? = some vm →
      vm.utilization < 50 ∧ vm.task_count < 2 →
      (consolidate_vms vms).1[i]? = some { vm with state := VMState.SLEEP }) := by
  have key : (consolidate_vms vms).1 =
      vms.map (fun vm =>
        if vm.utilization < 50 ∧ vm.task_count < 2 then
          { vm with state := VMState.SLEEP }
        else vm) := by
    induction vms with
    | nil => rfl
    | cons x rest ih =>
      unfold consolidate_vms
      simp only [CONSOLIDATION_THRESHOLD, List.map_cons]
      split_ifs with hc
      · simp only [ih]
      · simp only [ih]
  refine ⟨key, ?_, ?_, ?_⟩
  · intro i vm hvm hs
    rw [key, List.getElem?_map, hvm]
    simp only [Option.map_some', Option.some.injEq]
    split_ifs
    · cases vm
      simp only at hs
      simp only [hs]
    · rfl
  · intro i vm hvm hc
    rw [key, List.getElem?_map, hvm]
    simp only [Option.map_some', if_neg hc]
  · intro i vm hvm hc
    rw [key, List.getElem?_map, hvm]
    simp only [Option.map_some', if_pos hc]

/-- C15 fails as stated: the VM `vm_idle`, in state IDLE with utilization 10
and no task, is returned in state SLEEP. -/
theorem consolidate_vms_idle_goes_to_sleep :
    vm_idle.state = VMState.IDLE ∧
    (consolidate_vms [vm_idle]).1 = [{ vm_idle with state := VMState.SLEEP }] ∧
    (consolidate_vms [vm_idle]).1.map VM.state ≠ [vm_idle].map VM.state := by
  have h : (consolidate_vms [vm_idle]).1 = [{ vm_idle with state := VMState.SLEEP }] := by
    have hc : vm_idle.utilization < CONSOLIDATION_THRESHOLD ∧ vm_idle.task_count < 2 := by
      decide
    simp only [consolidate_vms, if_pos hc]
  refine ⟨rfl, h, ?_⟩
  rw [h]
  decide

/-! ## The SLA check after an assignment -/

/-- What `assign_task_to_vm` returns: on rejection its arguments, and on
acceptance the VM at one of the three frequencies with the task's energy
at that frequency added. -/
theorem assign_task_to_vm_cases (vm : VM) (task : Task) (total : ℚ) :
    (vm.utilization + task.load > 100 ∧
      assign_task_to_vm vm task total = (vm, total, [])) ∨
    (vm.utilization + task.load ≤ 100 ∧
      ∃ (f : ℚ), (f = 9 / 5 ∨ f = 5 / 2 ∨ f = 3) ∧
        assign_task_to_vm vm task total =
          ({ vm with utilization := vm.utilization + task.load,
                     task_count := vm.task_count + 1, cpu_freq := f,
                     energy_used := vm.energy_used + estimate_energy task.runtime f },
            total + estimate_baseline_energy task.runtime,
            Event.assigned task.id vm.id task.load f (estimate_energy task.runtime f) ::
              check_sla_compliance task (estimate_energy task.runtime f))) := by
  by_cases h : vm.utilization + task.load > 100
  · left
    refine ⟨h, ?_⟩
    unfold assign_task_to_vm
    rw [if_pos h]
  · right
    refine ⟨not_lt.mp h, ?_⟩
    simp only [assign_task_to_vm, if_neg h, adjust_frequency]
    split_ifs
    · exact ⟨3, Or.inr (Or.inr rfl), rfl⟩
    · exact ⟨9 / 5, Or.inl rfl, rfl⟩
    · exact ⟨5 / 2, Or.inr (Or.inl rfl), rfl⟩

/-- At each of the three frequencies a task of non-negative runtime costs at
most its baseline energy and at most a tenth of its runtime. -/
theorem estimate_energy_le (runtime : Int) (f : ℚ) (hr : 0 ≤ runtime)
    (hf : f = 9 / 5 ∨ f = 5 / 2 ∨ f = 3) :
    estimate_energy runtime f ≤ estimate_baseline_energy runtime ∧
    estimate_energy runtime f ≤ (runtime : ℚ) * (1 / 10) := by
  have hq : (0 : ℚ) ≤ (runtime : ℚ) := by exact_mod_cast hr
  simp only [estimate_energy, estimate_baseline_energy]
  rcases hf with rfl | rfl | rfl <;> constructor <;> nlinarith

/-- C20: an accepted assignment of a task of non-negative runtime never
takes the warning branch of `check_sla_compliance`: the frequency set is one
of 9/5, 5/2 and 3, the energy passed to the check is at most a tenth of the
runtime, the check prints nothing, and the assignment prints its own line
only. -/
theorem assign_task_to_vm_no_sla_warning (vm : VM) (task : Task) (total : ℚ)
    (hr : 0 ≤ task.runtime) (h : vm.utilization + task.load ≤ 100) :
    ((assign_task_to_vm vm task total).1.cpu_freq = 9 / 5 ∨
      (assign_task_to_vm vm task total).1.cpu_freq = 5 / 2 ∨
      (assign_task_to_vm vm task total).1.cpu_freq = 3) ∧
    estimate_energy task.runtime (assign_task_to_vm vm task total).1.cpu_freq ≤
      (task.runtime : ℚ) * (1 / 10) ∧
    check_sla_compliance task
      (estimate_energy task.runtime (assign_task_to_vm vm task total).1.cpu_freq) = [] ∧
    (assign_task_to_vm vm task total).2.2 =
      [Event.assigned task.id vm.id task.load
        (assign_task_to_vm vm task total).1.cpu_freq
        (estimate_energy task.runtime (assign_task_to_vm vm task total).1.cpu_freq)] ∧
    (∀ (id : Int), Event.sla_warning id ∉ (assign_task_to_vm vm task total).2.2) := by
  rcases assign_task_to_vm_cases vm task total with ⟨hgt, -⟩ | ⟨-, f, hf, he⟩
  · exact absurd h (not_le.mpr hgt)
  · have hle := (estimate_energy_le task.runtime f hr hf).2
    have hsla : check_sla_compliance task (estimate_energy task.runtime f) = [] := by
      unfold check_sla_compliance
      rw [if_neg (not_lt.mpr hle)]
    rw [he]
    simp only [hsla]
    exact ⟨hf, hle, trivial, trivial, by simp⟩

/-- The VM `vm_at_90` takes the task `task_load_5` of 3600 seconds at HIGH:
the energy is 3/10, below the threshold 360, and only the assignment is
printed. -/
theorem assign_task_to_vm_no_sla_warning_witness :
    0 ≤ task_load_5.runtime ∧ vm_at_90.utilization + task_load_5.load ≤ 100 ∧
    (∀ (id : Int),
      Event.sla_warning id ∉ (assign_task_to_vm vm_at_90 task_load_5 0).2.2) :=
  ⟨by decide, by decide,
    (assign_task_to_vm_no_sla_warning vm_at_90 task_load_5 0 (by decide) (by decide)).2.2.2.2⟩

/-! ## Sleeping VMs carry no energy and no task -/

/-- Every VM of a fresh pool is ACTIVE with no energy and no task. -/
theorem initialize_vms_fresh (rand : Nat → Int) (count : Nat) :
    ∀ vm ∈ initialize_vms rand count,
      vm.state = VMState.ACTIVE ∧ vm.energy_used = 0 ∧ vm.task_count = 0 := by
  intro vm hvm
  simp only [initialize_vms, List.mem_map, List.mem_range] at hvm
  obtain ⟨i, -, rfl⟩ := hvm
  exact ⟨rfl, rfl, rfl⟩

/-- Consolidation leaves a VM in its state or puts it in state SLEEP. -/
theorem consolidate_vms_state (vms : List VM) :
    ∀ vm ∈ (consolidate_vms vms).1, ∃ v ∈ vms,
      (vm.state = v.state ∨ vm.state = VMState.SLEEP) ∧
      vm.energy_used = v.energy_used ∧ vm.task_count = v.task_count := by
  induction vms with
  | nil => intro vm hvm; simp [consolidate_vms] at hvm
  | cons x rest ih =>
    intro vm hvm
    unfold consolidate_vms at hvm
    split_ifs at hvm with hc
    · simp only [List.mem_cons] at hvm
      rcases hvm with rfl | hvm
      · exact ⟨x, List.mem_cons_self _ _, Or.inr rfl, rfl, rfl⟩
      · obtain ⟨w, hw, h⟩ := ih vm hvm
        exact ⟨w, List.mem_cons_of_mem _ hw, h⟩
    · simp only [List.mem_cons] at hvm
      rcases hvm with rfl | hvm
      · exact ⟨vm, List.mem_cons_self _ _, Or.inl rfl, rfl, rfl⟩
      · obtain ⟨w, hw, h⟩ := ih vm hvm
        exact ⟨w, List.mem_cons_of_mem _ hw, h⟩

/-- The accumulation loop of `simulation_summary` over a pool whose sleeping
VMs carry no energy and no task adds the energies and task counts of all the
VMs. -/
theorem summary_loop_all : ∀ (vms : List VM) (e : ℚ) (n : Int),
    (∀ vm ∈ vms, vm.state = VMState.SLEEP → vm.energy_used = 0 ∧ vm.task_count = 0) →
    summary_loop vms e n =
      (e + (vms.map VM.energy_used).sum, n + (vms.map VM.task_count).sum)
  | [], e, n, _ => by simp [summary_loop]
  | x :: rest, e, n, h => by
    have hr := fun (e' : ℚ) (n' : Int) =>
      summary_loop_all rest e' n' (fun vm hvm => h vm (List.mem_cons_of_mem _ hvm))
    unfold summary_loop
    split_ifs with hc
    · obtain ⟨h1, h2⟩ := h x (List.mem_cons_self _ _) hc
      rw [hr]
      simp [h1, h2]
    · rw [hr]
      simp [add_assoc]

/-- C16: in the pool reached from `initialize_vms` by `consolidate_vms` and
any number of scheduling steps, every VM in state SLEEP has `energy_used = 0`
and `task_count = 0`; so the totals of the summary, which skip the sleeping
VMs, are the sums over all the VMs of the pool. -/
theorem sleeping_vms_carry_nothing (rand : Nat → Int) (count : Nat)
    (tasks : List Task) (total : ℚ) :
    (∀ vm ∈ (schedule_tasks (consolidate_vms (initialize_vms rand count)).1
        tasks total).1,
      vm.state = VMState.SLEEP → vm.energy_used = 0 ∧ vm.task_count = 0) ∧
    (∀ (baseline : ℚ),
      (simulation_summary
        (schedule_tasks (consolidate_vms (initialize_vms rand count)).1 tasks total).1
        baseline).total_energy =
      ((schedule_tasks (consolidate_vms (initialize_vms rand count)).1
        tasks total).1.map VM.energy_used).sum ∧
      (simulation_summary
        (schedule_tasks (consolidate_vms (initialize_vms rand count)).1 tasks total).1
        baseline).total_tasks =
      ((schedule_tasks (consolidate_vms (initialize_vms rand count)).1
        tasks total).1.map VM.task_count).sum) := by
  have hinv : ∀ vm ∈ (schedule_tasks (consolidate_vms (initialize_vms rand count)).1
        tasks total).1,
      vm.state = VMState.SLEEP → vm.energy_used = 0 ∧ vm.task_count = 0 := by
    apply schedule_tasks_forall
      (fun vm => vm.state = VMState.SLEEP → vm.energy_used = 0 ∧ vm.task_count = 0)
    · intro vm task total hact _ _ hs
      rw [assign_task_to_vm_state, hact] at hs
      exact absurd hs (by decide)
    · intro vm task total _ hs
      rw [assign_task_to_vm_state] at hs
      simp [reset_vm] at hs
    · intro vm hvm _
      obtain ⟨v, hv, -, he, ht⟩ := consolidate_vms_state _ vm hvm
      obtain ⟨-, he0, ht0⟩ := initialize_vms_fresh rand count v hv
      exact ⟨by rw [he, he0], by rw [ht, ht0]⟩
  refine ⟨hinv, ?_⟩
  intro baseline
  simp only [simulation_summary, summary_loop_all _ 0 0 hinv]
  simp

/-! ## The state machine of a VM -/

/-- The inner loop of `main` changes no state. -/
theorem first_fit_states (task : Task) :
    ∀ (vms : List VM) (total : ℚ) (r : List VM × ℚ × List Event),
      first_fit vms task total = some r → r.1.map VM.state = vms.map VM.state := by
  intro vms
  induction vms with
  | nil => intro total r h; simp [first_fit] at h
  | cons x rest ih =>
    intro total r h
    unfold first_fit at h
    split_ifs at h with hc
    · simp only [Option.some.injEq] at h
      subst h
      simp [assign_task_to_vm_state]
    · cases hff : first_fit rest task total with
      | none => simp [hff] at h
      | some r' =>
        simp only [hff, Option.some.injEq] at h
        subst h
        simp [ih total r' hff]

/-- The function `reactivate_sleeping_vm` changes no state, or the state of
one VM from SLEEP to ACTIVE. -/
theorem reactivate_sleeping_vm_states (task : Task) (total : ℚ) :
    ∀ (vms : List VM),
      (reactivate_sleeping_vm vms task total).1.map VM.state = vms.map VM.state ∨
      ∃ (j : Nat), (vms.map VM.state)[j]? = some VMState.SLEEP ∧
        (reactivate_sleeping_vm vms task total).1.map VM.state =
          (vms.map VM.state).set j VMState.ACTIVE := by
  intro vms
  induction vms with
  | nil => left; rfl
  | cons x rest ih =>
    by_cases hx : x.state = VMState.SLEEP
    · right
      refine ⟨0, by simp [hx], ?_⟩
      simp [reactivate_sleeping_vm, hx, assign_task_to_vm_state, reset_vm]
    · rcases ih with h | ⟨j, hj, h⟩
      · left
        simp [reactivate_sleeping_vm, hx, h]
      · right
        refine ⟨j + 1, by simpa using hj, ?_⟩
        simp only [reactivate_sleeping_vm, if_neg hx, List.map_cons, h, List.set_cons_succ]

/-- C17: no VM of a fresh pool, and no VM of the pool reached from it by
`consolidate_vms` and any number of scheduling steps, is in state IDLE; and
a scheduling step, from any pool, either leaves the state of every VM as it
was or changes the state of exactly one VM, from SLEEP to ACTIVE, so that it
never puts a VM to SLEEP. -/
theorem vm_state_machine :
    (∀ (rand : Nat → Int) (count : Nat),
      ∀ vm ∈ initialize_vms rand count, vm.state ≠ VMState.IDLE) ∧
    (∀ (rand : Nat → Int) (count : Nat) (tasks : List Task) (total : ℚ),
      ∀ vm ∈ (schedule_tasks (consolidate_vms (initialize_vms rand count)).1
        tasks total).1, vm.state ≠ VMState.IDLE) ∧
    (∀ (vms : List VM) (task : Task) (total : ℚ),
      (schedule_task vms task total).1.map VM.state = vms.map VM.state ∨
      ∃ (j : Nat), (vms.map VM.state)[j]? = some VMState.SLEEP ∧
        (schedule_task vms task total).1.map VM.state =
          (vms.map VM.state).set j VMState.ACTIVE) := by
  refine ⟨?_, ?_, ?_⟩
  · intro rand count vm hvm
    rw [(initialize_vms_fresh rand count vm hvm).1]
    decide
  · intro rand count tasks total
    apply schedule_tasks_forall (fun vm => vm.state ≠ VMState.IDLE)
    · intro vm task total hact _ _
      rw [assign_task_to_vm_state, hact]
      decide
    · intro vm task total _
      rw [assign_task_to_vm_state]
      simp [reset_vm]
    · intro vm hvm
      obtain ⟨v, hv, hs, -⟩ := consolidate_vms_state _ vm hvm
      have hact := (initialize_vms_fresh rand count v hv).1
      rcases hs with hs | hs
      · rw [hs, hact]
        decide
      · rw [hs]
        decide
  · intro vms task total
    unfold schedule_task
    cases hff : first_fit vms task total with
    | none => exact reactivate_sleeping_vm_states task total vms
    | some r => exact Or.inl (first_fit_states task vms total r hff)

/-! ## Accounting of one scheduling step -/

/-- The accumulation loop of `simulation_summary` adds what each VM
counts for. -/
theorem summary_loop_counted : ∀ (vms : List VM) (e : ℚ) (n : Int),
    summary_loop vms e n =
      (e + (vms.map VM.counted_energy).sum, n + (vms.map VM.counted_tasks).sum)
  | [], e, n => by simp [summary_loop]
  | x :: rest, e, n => by
    unfold summary_loop
    split_ifs with hc
    · rw [summary_loop_counted rest e n]
      simp [VM.counted_energy, VM.counted_tasks, hc]
    · rw [summary_loop_counted rest]
      simp [VM.counted_energy, VM.counted_tasks, hc, add_assoc]

/-- Replacing one entry of a pool changes a sum over the pool by the
difference of the two entries. -/
theorem sum_map_set {M : Type} [AddCommGroup M] (g : VM → M) :
    ∀ (l : List VM) (j : Nat) (v a : VM), l[j]? = some v →
      ((l.set j a).map g).sum = (l.map g).sum + (g a - g v)
  | [], _, _, _, h => by simp at h
  | x :: l, 0, v, a, h => by
    simp only [List.getElem?_cons_zero, Option.some.injEq] at h
    subst h
    simp only [List.set_cons_zero, List.map_cons, List.sum_cons]
    abel
  | x :: l, j + 1, v, a, h => by
    simp only [List.getElem?_cons_succ] at h
    simp only [List.set_cons_succ, List.map_cons, List.sum_cons, sum_map_set g l j v a h]
    abel

/-- The SLA check prints neither an assignment nor an unschedulable task. -/
theorem check_sla_compliance_counts (task : Task) (e : ℚ) :
    (check_sla_compliance task e).countP Event.is_assigned = 0 ∧
    (check_sla_compliance task e).countP Event.is_unschedulable = 0 := by
  unfold check_sla_compliance
  split_ifs <;> simp [Event.is_assigned, Event.is_unschedulable]

/-- With a sleeping VM in the pool, `reactivate_sleeping_vm` replaces one
sleeping VM by the result of the assignment to its reset. -/
theorem reactivate_sleeping_vm_some (task : Task) (total : ℚ) :
    ∀ (vms : List VM), (∃ vm ∈ vms, vm.state = VMState.SLEEP) →
      ∃ (j : Nat) (v : VM), vms[j]? = some v ∧ v.state = VMState.SLEEP ∧
        reactivate_sleeping_vm vms task total =
          (vms.set j (assign_task_to_vm (reset_vm v) task total).1,
            (assign_task_to_vm (reset_vm v) task total).2.1,
            Event.reactivated v.id task.id ::
              (assign_task_to_vm (reset_vm v) task total).2.2) := by
  intro vms
  induction vms with
  | nil => rintro ⟨vm, hvm, -⟩; simp at hvm
  | cons x rest ih =>
    intro h
    by_cases hx : x.state = VMState.SLEEP
    · exact ⟨0, x, by simp, hx, by simp [reactivate_sleeping_vm, hx]⟩
    · have hrest : ∃ vm ∈ rest, vm.state = VMState.SLEEP := by
        obtain ⟨vm, hvm, hs⟩ := h
        simp only [List.mem_cons] at hvm
        rcases hvm with rfl | hvm
        · exact absurd hs hx
        · exact ⟨vm, hvm, hs⟩
      obtain ⟨j, v, hj, hv, he⟩ := ih hrest
      refine ⟨j + 1, v, by simpa using hj, hv, ?_⟩
      simp only [reactivate_sleeping_vm, if_neg hx, he, List.set_cons_succ]

/-- The accounts of one iteration of the scheduling loop. With `k = 1` when
the task is assigned (some ACTIVE VM has room, or a VM sleeps and the load
is at most 100) and `k = 0` otherwise: the iteration prints `k` assignment
lines, adds `k` times the task's baseline energy to the total, adds `k` to
the counted tasks and adds to the counted energy an amount `d` which, for a
non-negative runtime, is at most what the total gained. It reports the task
as unschedulable only when it changes nothing. -/
theorem schedule_task_account (vms : List VM) (task : Task) (total : ℚ) :
    ∃ (k : Nat) (d : ℚ),
      (k = 0 ∨ k = 1) ∧
      (k = 1 ↔
        ((∃ vm ∈ vms, vm.state = VMState.ACTIVE ∧ vm.utilization + task.load ≤ 100) ∨
          ((∃ vm ∈ vms, vm.state = VMState.SLEEP) ∧ task.load ≤ 100))) ∧
      (schedule_task vms task total).2.2.countP Event.is_assigned = k ∧
      (schedule_task vms task total).2.1 =
        total + (k : ℚ) * estimate_baseline_energy task.runtime ∧
      ((schedule_task vms task total).1.map VM.counted_energy).sum =
        (vms.map VM.counted_energy).sum + d ∧
      (0 ≤ task.runtime → d ≤ (k : ℚ) * estimate_baseline_energy task.runtime) ∧
      ((schedule_task vms task total).1.map VM.counted_tasks).sum =
        (vms.map VM.counted_tasks).sum + (k : Int) ∧
      ((schedule_task vms task total).2.2.countP Event.is_unschedulable = 0 ∨
        ((schedule_task vms task total).2.2.countP Event.is_unschedulable = 1 ∧ k = 0 ∧
          schedule_task vms task total =
            (vms, total, [Event.could_not_be_scheduled task.id]))) ∧
      (task.load ≤ 100 →
        k + (schedule_task vms task total).2.2.countP Event.is_unschedulable = 1) := by
  by_cases hfit : ∃ vm ∈ vms,
      vm.state = VMState.ACTIVE ∧ vm.utilization + task.load ≤ 100
  · obtain ⟨j, v, hj, hv, -, hff⟩ := first_fit_lowest task total vms hfit
    rcases assign_task_to_vm_cases v task total with ⟨hgt, -⟩ | ⟨-, f, hf, he⟩
    · exact absurd hv.2 (not_le.mpr hgt)
    · have hs : schedule_task vms task total =
          (vms.set j
            { v with utilization := v.utilization + task.load,
                     task_count := v.task_count + 1, cpu_freq := f,
                     energy_used := v.energy_used + estimate_energy task.runtime f },
            total + estimate_baseline_energy task.runtime,
            Event.assigned task.id v.id task.load f (estimate_energy task.runtime f) ::
              check_sla_compliance task (estimate_energy task.runtime f)) := by
        simp only [schedule_task, hff, he]
      have hns : ¬ v.state = VMState.SLEEP := by
        rw [hv.1]
        decide
      obtain ⟨hc1, hc2⟩ :=
        check_sla_compliance_counts task (estimate_energy task.runtime f)
      have hu : (schedule_task vms task total).2.2.countP Event.is_unschedulable = 0 := by
        rw [hs]
        simp [List.countP_cons, Event.is_unschedulable, hc2]
      refine ⟨1, estimate_energy task.runtime f, Or.inr rfl,
        ⟨fun _ => Or.inl hfit, fun _ => rfl⟩, ?_, ?_, ?_, ?_, ?_, Or.inl hu, ?_⟩
      · rw [hs]
        simp [List.countP_cons, Event.is_assigned, hc1]
      · rw [hs]
        simp
      · rw [hs]
        simp only [sum_map_set VM.counted_energy vms j v _ hj]
        simp [VM.counted_energy, hns]
      · intro hr
        simpa using (estimate_energy_le task.runtime f hr hf).1
      · rw [hs]
        simp only [sum_map_set VM.counted_tasks vms j v _ hj]
        simp [VM.counted_tasks, hns]
      · intro _
        rw [hu]
  · have hnofit : ∀ vm ∈ vms,
        ¬ (vm.state = VMState.ACTIVE ∧ vm.utilization + task.load ≤ 100) :=
      fun vm hvm hc => hfit ⟨vm, hvm, hc⟩
    have hff := first_fit_none task total vms hnofit
    by_cases hsl : ∃ vm ∈ vms, vm.state = VMState.SLEEP
    · obtain ⟨j, v, hj, hv, hre⟩ := reactivate_sleeping_vm_some task total vms hsl
      have hcv : VM.counted_energy v = 0 ∧ VM.counted_tasks v = 0 := by
        simp [VM.counted_energy, VM.counted_tasks, hv]
      rcases assign_task_to_vm_cases (reset_vm v) task total with
        ⟨hgt, he⟩ | ⟨hle, f, hf, he⟩
      · have hs : schedule_task vms task total =
            (vms.set j (reset_vm v), total, [Event.reactivated v.id task.id]) := by
          simp only [schedule_task, hff, hre, he]
        have hload : ¬ task.load ≤ 100 := by
          simp only [reset_vm] at hgt
          omega
        have hu : (schedule_task vms task total).2.2.countP Event.is_unschedulable = 0 := by
          rw [hs]
          simp [List.countP_cons, Event.is_unschedulable]
        refine ⟨0, 0, Or.inl rfl, ⟨fun h => absurd h (by decide), ?_⟩, ?_, ?_, ?_, ?_, ?_,
          Or.inl hu, ?_⟩
        · rintro (h | ⟨-, h⟩)
          · exact absurd h hfit
          · exact absurd h hload
        · rw [hs]
          simp [List.countP_cons, Event.is_assigned]
        · rw [hs]
          simp
        · rw [hs]
          simp only [sum_map_set VM.counted_energy vms j v _ hj]
          simp [VM.counted_energy, reset_vm, hv]
        · intro _
          simp
        · rw [hs]
          simp only [sum_map_set VM.counted_tasks vms j v _ hj]
          simp [VM.counted_tasks, reset_vm, hv]
        · intro h
          exact absurd h hload
      · have hs : schedule_task vms task total =
            (vms.set j
              { reset_vm v with
                  utilization := (reset_vm v).utilization + task.load,
                  task_count := (reset_vm v).task_count + 1, cpu_freq := f,
                  energy_used :=
                    (reset_vm v).energy_used + estimate_energy task.runtime f },
              total + estimate_baseline_energy task.runtime,
              Event.reactivated v.id task.id ::
                Event.assigned task.id (reset_vm v).id task.load f
                  (estimate_energy task.runtime f) ::
                check_sla_compliance task (estimate_energy task.runtime f)) := by
          simp only [schedule_task, hff, hre, he]
        have hload : task.load ≤ 100 := by
          simp only [reset_vm] at hle
          omega
        obtain ⟨hc1, hc2⟩ :=
          check_sla_compliance_counts task (estimate_energy task.runtime f)
        have hu : (schedule_task vms task total).2.2.countP Event.is_unschedulable = 0 := by
          rw [hs]
          simp [List.countP_cons, Event.is_unschedulable, hc2]
        refine ⟨1, estimate_energy task.runtime f, Or.inr rfl,
          ⟨fun _ => Or.inr ⟨hsl, hload⟩, fun _ => rfl⟩, ?_, ?_, ?_, ?_, ?_, Or.inl hu, ?_⟩
        · rw [hs]
          simp [List.countP_cons, Event.is_assigned, hc1]
        · rw [hs]
          simp
        · rw [hs]
          simp only [sum_map_set VM.counted_energy vms j v _ hj]
          simp [VM.counted_energy, reset_vm, hv]
        · intro hr
          simpa using (estimate_energy_le task.runtime f hr hf).1
        · rw [hs]
          simp only [sum_map_set VM.counted_tasks vms j v _ hj]
          simp [VM.counted_tasks, reset_vm, hv]
        · intro _
          rw [hu]
    · have hnosl : ∀ vm ∈ vms, vm.state ≠ VMState.SLEEP :=
        fun vm hvm hc => hsl ⟨vm, hvm, hc⟩
      have hs : schedule_task vms task total =
          (vms, total, [Event.could_not_be_scheduled task.id]) := by
        simp only [schedule_task, hff, reactivate_sleeping_vm_none task total vms hnosl]
      have hu : (schedule_task vms task total).2.2.countP Event.is_unschedulable = 1 := by
        rw [hs]
        simp [List.countP_cons, Event.is_unschedulable]
      refine ⟨0, 0, Or.inl rfl, ⟨fun h => absurd h (by decide), ?_⟩, ?_, ?_, ?_, ?_, ?_,
        Or.inr ⟨hu, rfl, hs⟩, ?_⟩
      · rintro (h | ⟨h, -⟩)
        · exact absurd h hfit
        · exact absurd h hsl
      · rw [hs]
        simp [List.countP_cons, Event.is_assigned]
      · rw [hs]
        simp
      · rw [hs]
        simp
      · intro _
        simp
      · rw [hs]
        simp
      · intro _
        rw [hu]

/-! ## Accounting of the scheduling loop -/

/-- A printed line of the kind exists exactly when the count of such lines
is positive. -/
theorem any_iff_countP_pos (p : Event → Bool) (evs : List Event) :
    evs.any p = true ↔ 0 < evs.countP p := by
  rw [List.any_eq_true, List.countP_pos_iff]

/-- The accounts of the scheduling loop over a task list: the total grows by
the baseline energies of the assigned tasks, each assigned task prints one
assignment line and adds one counted task, the counted energy grows no more
than the total when the runtimes are non-negative, and every task of load at
most 100 is either assigned or reported unschedulable. -/
theorem schedule_tasks_account : ∀ (tasks : List Task) (vms : List VM) (total : ℚ),
    (schedule_tasks vms tasks total).2.1 =
      total + ((assigned_tasks vms tasks total).map
        (fun t => estimate_baseline_energy t.runtime)).sum ∧
    (schedule_tasks vms tasks total).2.2.countP Event.is_assigned =
      (assigned_tasks vms tasks total).length ∧
    ((schedule_tasks vms tasks total).1.map VM.counted_tasks).sum =
      (vms.map VM.counted_tasks).sum +
        ((schedule_tasks vms tasks total).2.2.countP Event.is_assigned : Int) ∧
    ((∀ t ∈ tasks, 0 ≤ t.runtime) →
      ((schedule_tasks vms tasks total).1.map VM.counted_energy).sum -
          (vms.map VM.counted_energy).sum ≤
        (schedule_tasks vms tasks total).2.1 - total) ∧
    ((∀ t ∈ tasks, t.load ≤ 100) →
      (schedule_tasks vms tasks total).2.2.countP Event.is_assigned +
          (schedule_tasks vms tasks total).2.2.countP Event.is_unschedulable =
        tasks.length)
  | [], vms, total => by simp [schedule_tasks, assigned_tasks]
  | t :: rest, vms, total => by
    obtain ⟨k, d, hk, -, hca, htot, hce, hd, hct, -, hsum⟩ :=
      schedule_task_account vms t total
    obtain ⟨ih1, ih2, ih3, ih4, ih5⟩ :=
      schedule_tasks_account rest (schedule_task vms t total).1
        (schedule_task vms t total).2.1
    have hlen : (assigned_tasks vms (t :: rest) total).length =
        k + (assigned_tasks (schedule_task vms t total).1 rest
          (schedule_task vms t total).2.1).length := by
      rcases hk with rfl | rfl
      · have hany : ¬ (schedule_task vms t total).2.2.any Event.is_assigned = true := by
          rw [any_iff_countP_pos, hca]
          decide
        simp only [assigned_tasks, if_neg hany, Nat.zero_add]
      · have hany : (schedule_task vms t total).2.2.any Event.is_assigned = true := by
          rw [any_iff_countP_pos, hca]
          decide
        simp only [assigned_tasks, if_pos hany, List.length_cons]
        omega
    have hbase : ((assigned_tasks vms (t :: rest) total).map
          (fun t => estimate_baseline_energy t.runtime)).sum =
        (k : ℚ) * estimate_baseline_energy t.runtime +
          ((assigned_tasks (schedule_task vms t total).1 rest
            (schedule_task vms t total).2.1).map
            (fun t => estimate_baseline_energy t.runtime)).sum := by
      rcases hk with rfl | rfl
      · have hany : ¬ (schedule_task vms t total).2.2.any Event.is_assigned = true := by
          rw [any_iff_countP_pos, hca]
          decide
        simp only [assigned_tasks, if_neg hany]
        simp
      · have hany : (schedule_task vms t total).2.2.any Event.is_assigned = true := by
          rw [any_iff_countP_pos, hca]
          decide
        simp only [assigned_tasks, if_pos hany, List.map_cons, List.sum_cons]
        simp
    refine ⟨?_, ?_, ?_, ?_, ?_⟩
    · simp only [schedule_tasks]
      rw [ih1, hbase]
      linarith [htot]
    · simp only [schedule_tasks, List.countP_append]
      rw [ih2, hca, hlen]
    · simp only [schedule_tasks, List.countP_append]
      rw [ih3, hct, hca]
      push_cast
      ring
    · intro hr
      have h1 := hd (hr t (List.mem_cons_self _ _))
      have h2 := ih4 (fun x hx => hr x (List.mem_cons_of_mem _ hx))
      simp only [schedule_tasks]
      linarith [hce, htot]
    · intro hl
      have h1 := hsum (hl t (List.mem_cons_self _ _))
      have h2 := ih5 (fun x hx => hl x (List.mem_cons_of_mem _ hx))
      simp only [schedule_tasks, List.countP_append, List.length_cons]
      rw [hca]
      omega

/-- The assigned tasks are tasks of the list, in the order of the list and
each at most once. -/
theorem assigned_tasks_sublist : ∀ (tasks : List Task) (vms : List VM) (total : ℚ),
    (assigned_tasks vms tasks total).Sublist tasks
  | [], _, _ => by simp [assigned_tasks]
  | t :: rest, vms, total => by
    unfold assigned_tasks
    simp only
    split_ifs
    · exact (assigned_tasks_sublist rest _ _).cons₂ t
    · exact (assigned_tasks_sublist rest _ _).cons t

/-- After consolidation of a fresh pool nothing is counted yet. -/
theorem consolidated_fresh_counts (rand : Nat → Int) (count : Nat) :
    ((consolidate_vms (initialize_vms rand count)).1.map VM.counted_energy).sum = 0 ∧
    ((consolidate_vms (initialize_vms rand count)).1.map VM.counted_tasks).sum = 0 := by
  have h : ∀ vm ∈ (consolidate_vms (initialize_vms rand count)).1,
      vm.energy_used = 0 ∧ vm.task_count = 0 := by
    intro vm hvm
    obtain ⟨v, hv, -, he, ht⟩ := consolidate_vms_state _ vm hvm
    obtain ⟨-, he0, ht0⟩ := initialize_vms_fresh rand count v hv
    exact ⟨by rw [he, he0], by rw [ht, ht0]⟩
  constructor
  · apply List.sum_eq_zero
    intro x hx
    simp only [List.mem_map] at hx
    obtain ⟨vm, hvm, rfl⟩ := hx
    simp [VM.counted_energy, (h vm hvm).1]
  · apply List.sum_eq_zero
    intro x hx
    simp only [List.mem_map] at hx
    obtain ⟨vm, hvm, rfl⟩ := hx
    simp [VM.counted_tasks, (h vm hvm).2]

/-- One iteration of the scheduling loop changes at most one VM. -/
theorem schedule_task_changes_one (vms : List VM) (task : Task) (total : ℚ) :
    ∃ (j : Nat), ∀ (i : Nat), i ≠ j →
      (schedule_task vms task total).1[i]? = vms[i]? := by
  by_cases hfit : ∃ vm ∈ vms,
      vm.state = VMState.ACTIVE ∧ vm.utilization + task.load ≤ 100
  · obtain ⟨j, v, -, -, -, hff⟩ := first_fit_lowest task total vms hfit
    refine ⟨j, fun i hi => ?_⟩
    simp only [schedule_task, hff, List.getElem?_set_ne (Ne.symm hi)]
  · have hff := first_fit_none task total vms (fun vm hvm hc => hfit ⟨vm, hvm, hc⟩)
    by_cases hsl : ∃ vm ∈ vms, vm.state = VMState.SLEEP
    · obtain ⟨j, v, -, -, hre⟩ := reactivate_sleeping_vm_some task total vms hsl
      refine ⟨j, fun i hi => ?_⟩
      simp only [schedule_task, hff, hre, List.getElem?_set_ne (Ne.symm hi)]
    · refine ⟨0, fun i _ => ?_⟩
      simp only [schedule_task, hff,
        reactivate_sleeping_vm_none task total vms (fun vm hvm hc => hsl ⟨vm, hvm, hc⟩)]

/-! ## The baseline total -/

/-- C14: after the scheduling loop from a baseline total of 0, over any pool
and task list, the baseline total is the sum of
`estimate_baseline_energy task.runtime` over the assigned tasks, which are
tasks of the list taken in order, each once, one per assignment line
printed. In one iteration the task is assigned exactly when some ACTIVE VM
has room for it (direct fit) or, failing that, a VM sleeps and the load is
at most 100 (reactivation); an iteration prints at most one assignment
line, and one that reports the task unschedulable assigns nothing and
leaves the total as it was. -/
theorem baseline_total_is_sum_over_assigned (vms : List VM) (tasks : List Task) :
    (schedule_tasks vms tasks 0).2.1 =
      ((assigned_tasks vms tasks 0).map
        (fun t => estimate_baseline_energy t.runtime)).sum ∧
    (assigned_tasks vms tasks 0).Sublist tasks ∧
    (schedule_tasks vms tasks 0).2.2.countP Event.is_assigned =
      (assigned_tasks vms tasks 0).length ∧
    (∀ (pool : List VM) (task : Task) (total : ℚ),
      ((schedule_task pool task total).2.2.any Event.is_assigned = true ↔
        ((∃ vm ∈ pool, vm.state = VMState.ACTIVE ∧ vm.utilization + task.load ≤ 100) ∨
          ((∃ vm ∈ pool, vm.state = VMState.SLEEP) ∧ task.load ≤ 100))) ∧
      (schedule_task pool task total).2.2.countP Event.is_assigned ≤ 1 ∧
      ((schedule_task pool task total).2.2.any Event.is_assigned = true →
        (schedule_task pool task total).2.1 =
          total + estimate_baseline_energy task.runtime) ∧
      ((schedule_task pool task total).2.2.any Event.is_assigned = false →
        (schedule_task pool task total).2.1 = total) ∧
      ((schedule_task pool task total).2.2.any Event.is_unschedulable = true →
        (schedule_task pool task total).2.2.any Event.is_assigned = false)) := by
  obtain ⟨h1, h2, -, -, -⟩ := schedule_tasks_account tasks vms 0
  refine ⟨by simpa using h1, assigned_tasks_sublist tasks vms 0, h2, ?_⟩
  intro pool task total
  obtain ⟨k, d, hk, hiff, hca, htot, -, -, -, hun, -⟩ :=
    schedule_task_account pool task total
  have hany : (schedule_task pool task total).2.2.any Event.is_assigned = true ↔ k = 1 := by
    rw [any_iff_countP_pos, hca]
    omega
  refine ⟨hany.trans hiff, by omega, ?_, ?_, ?_⟩
  · intro h
    rw [htot, hany.mp h]
    simp
  · intro h
    have hk0 : k = 0 := by
      rcases hk with hk | hk
      · exact hk
      · rw [hany.mpr hk] at h
        exact absurd h (by decide)
    rw [htot, hk0]
    simp
  · intro h
    rw [any_iff_countP_pos] at h
    rcases hun with h0 | ⟨-, hk0, -⟩
    · omega
    · cases hb : (schedule_task pool task total).2.2.any Event.is_assigned with
      | false => rfl
      | true =>
        have := hany.mp hb
        omega

/-- From the pool `pool_sleeping`, the task of load 150 wakes VM 1 without
being assigned and adds nothing; the tasks of 3600 and 7200 seconds are
assigned and the baseline total ends at 3/10 + 6/10. -/
theorem baseline_total_is_sum_over_assigned_witness :
    assigned_tasks pool_sleeping tasks_mixed 0 =
      [{ id := 2, load := 10, runtime := 3600 }, { id := 3, load := 5, runtime := 7200 }] ∧
    (schedule_tasks pool_sleeping tasks_mixed 0).2.1 = 9 / 10 := by
  have ha : assigned_tasks pool_sleeping tasks_mixed 0 =
      [{ id := 2, load := 10, runtime := 3600 }, { id := 3, load := 5, runtime := 7200 }] := by
    decide
  refine ⟨ha, ?_⟩
  rw [(baseline_total_is_sum_over_assigned pool_sleeping tasks_mixed).1, ha]
  norm_num [estimate_baseline_energy]

/-! ## Energy saved is never negative -/

/-- Some values of `round_f32`: `0`, `3`, `5/2` and `3600` are `float`s;
`0.1f` is `13421773 / 2^27` (bits `0x3DCCCCCD`), `1.8f` is `7549747 / 2^22`
(`0x3FE66666`) and a third is `11184811 / 2^25` (`0x3EAAAAAB`), with the
sign kept; `2^24 + 1` is half way between two `float`s and goes to the even
one, `2^24 + 3` goes up; below `2^(-126)` the spacing stays `2^(-149)`. -/
theorem round_f32_values :
    round_f32 0 = 0 ∧ round_f32 3 = 3 ∧ round_f32 (5 / 2) = 5 / 2 ∧
    round_f32 3600 = 3600 ∧
    round_f32 (1 / 10) = 13421773 / 134217728 ∧
    round_f32 (9 / 5) = 7549747 / 4194304 ∧
    round_f32 (1 / 3) = 11184811 / 33554432 ∧
    round_f32 (-1 / 3) = -11184811 / 33554432 ∧
    round_f32 16777217 = 16777216 ∧ round_f32 16777219 = 16777220 ∧
    round_f32 (3 / 2 ^ 150) = 1 / 2 ^ 148 ∧ round_f32 (1 / 2 ^ 150) = 0 := by
  decide!

/-- C19: for the pool from `initialize_vms` and `consolidate_vms` and the
scheduling loop, from a total of 0, over any task list with loads in
`[0, 100]`, the total task count of the summary is the number of tasks of
the list minus the number reported unschedulable, which is the number of
assigned tasks. In one iteration, from any pool, such a task is either
reported unschedulable with the pool unchanged, or counted once: at most one
VM changes and the total task count of the summary grows by one. -/
theorem task_conservation (rand : Nat → Int) (count : Nat) (tasks : List Task)
    (h : ∀ t ∈ tasks, 0 ≤ t.load ∧ t.load ≤ 100) :
    (simulation_summary
      (schedule_tasks (consolidate_vms (initialize_vms rand count)).1 tasks 0).1
      (schedule_tasks (consolidate_vms (initialize_vms rand count)).1 tasks 0).2.1
      ).total_tasks =
      (tasks.length : Int) -
        ((schedule_tasks (consolidate_vms (initialize_vms rand count)).1
          tasks 0).2.2.countP Event.is_unschedulable : Int) ∧
    (simulation_summary
      (schedule_tasks (consolidate_vms (initialize_vms rand count)).1 tasks 0).1
      (schedule_tasks (consolidate_vms (initialize_vms rand count)).1 tasks 0).2.1
      ).total_tasks =
      ((assigned_tasks (consolidate_vms (initialize_vms rand count)).1
        tasks 0).length : Int) ∧
    (∀ (pool : List VM) (task : Task) (total baseline : ℚ), task.load ≤ 100 →
      (schedule_task pool task total =
          (pool, total, [Event.could_not_be_scheduled task.id])) ∨
      ((schedule_task pool task total).2.2.countP Event.is_unschedulable = 0 ∧
        (∃ (j : Nat), ∀ (i : Nat), i ≠ j →
          (schedule_task pool task total).1[i]? = pool[i]?) ∧
        (simulation_summary (schedule_task pool task total).1 baseline).total_tasks =
          (simulation_summary pool baseline).total_tasks + 1)) := by
  obtain ⟨-, h2, h3, -, h5⟩ :=
    schedule_tasks_account tasks (consolidate_vms (initialize_vms rand count)).1 0
  have hsum := h5 (fun t ht => (h t ht).2)
  rw [(consolidated_fresh_counts rand count).2] at h3
  refine ⟨?_, ?_, ?_⟩
  · simp only [simulation_summary, summary_loop_counted]
    rw [h3]
    omega
  · simp only [simulation_summary, summary_loop_counted]
    rw [h3, h2]
    simp
  · intro pool task total baseline hl
    obtain ⟨k, d, hk, -, -, -, -, -, hct, hun, hone⟩ :=
      schedule_task_account pool task total
    rcases hun with h0 | ⟨-, -, hs⟩
    · right
      have hk1 : k = 1 := by
        have := hone hl
        omega
      refine ⟨h0, schedule_task_changes_one pool task total, ?_⟩
      simp only [simulation_summary, summary_loop_counted]
      rw [hct, hk1]
      simp
    · exact Or.inl hs

/-- Three VMs from the stream `rand_example` and the two tasks of
`tasks_example`: both tasks are counted, so none is reported unschedulable. -/
theorem task_conservation_witness :
    (∀ t ∈ tasks_example, 0 ≤ t.load ∧ t.load ≤ 100) ∧
    (simulation_summary
      (schedule_tasks (consolidate_vms (initialize_vms rand_example 3)).1
        tasks_example 0).1
      (schedule_tasks (consolidate_vms (initialize_vms rand_example 3)).1
        tasks_example 0).2.1).total_tasks = 2 ∧
    (simulation_summary
      (schedule_tasks (consolidate_vms (initialize_vms rand_example 3)).1
        tasks_example 0).1
      (schedule_tasks (consolidate_vms (initialize_vms rand_example 3)).1
        tasks_example 0).2.1).total_tasks =
      (tasks_example.length : Int) -
        ((schedule_tasks (consolidate_vms (initialize_vms rand_example 3)).1
          tasks_example 0).2.2.countP Event.is_unschedulable : Int) := by
  have h : ∀ t ∈ tasks_example, 0 ≤ t.load ∧ t.load ≤ 100 := by
    intro t ht
    simp only [tasks_example, List.mem_cons, List.mem_singleton, List.not_mem_nil,
      or_false] at ht
    rcases ht with rfl | rfl <;> decide
  exact ⟨h, by decide, (task_conservation rand_example 3 tasks_example h).1⟩

end DVFS
